import Mathlib

/-!
Verification of the DaggerQuest-Pixi core: the SAT collision engine
(`satOverlap`, `aabbOverlap`, `resolveCollisions`, `resolveBoundaryCollisions`),
the direction model (`findClosestDirection`), the animation frame table
(`getAnimationFrames`), the gear synchronisation pass (`Gear._sync`) and the
character movement state machine (`moveToward` / `update`), shallowly embedded
from the JavaScript source.

Modelling conventions.  JavaScript numbers are idealised as real numbers
(rationals where the embedded code is exact, so that witnesses evaluate by
`decide`).  The `Infinity` / `-Infinity` seeds of the min/max accumulation
loops are modelled by `⊤` / `⊥` in `EReal`, which has the same comparison
behaviour; all reachable arithmetic stays on finite (coerced) values.
JavaScript object property tables are modelled as insertion-ordered
association lists, and `Map` lookups keyed on array object identity are
modelled as value lookups (exact under the no-duplicate-values hypotheses
used below).
-/

namespace DaggerQuest

/-- A 2-D point / vector, as the `{x, y}` objects of the source. -/
structure Pt where
  x : ℝ
  y : ℝ

theorem Pt.ext_xy (a b : Pt) (hx : a.x = b.x) (hy : a.y = b.y) : a = b := by
  cases a; cases b; simp_all

noncomputable section Geometry

/-- Dot product `p.x * axis.x + p.y * axis.y`, as written inline in `project`
and `satOverlap`. -/
def dotp (p axis : Pt) : ℝ := p.x * axis.x + p.y * axis.y

/-- `getAxes(poly)`: the unit edge normals `(-edgeY/len, edgeX/len)` of each
edge `poly[i] → poly[(i+1) % poly.length]`; zero-length edges are skipped
(`if (len === 0) continue`). -/
def getAxes (poly : List Pt) : List Pt :=
  (List.range poly.length).filterMap fun i =>
    let p1 := poly.getD i ⟨0, 0⟩
    let p2 := poly.getD ((i + 1) % poly.length) ⟨0, 0⟩
    let edgeX := p2.x - p1.x
    let edgeY := p2.y - p1.y
    let len := Real.sqrt (edgeX * edgeX + edgeY * edgeY)
    if len = 0 then none else some ⟨-edgeY / len, edgeX / len⟩

/-- `project(poly, axis)`: fold of `if (dot < min) min = dot; if (dot > max)
max = dot` starting from `min = Infinity, max = -Infinity` (modelled as
`⊤, ⊥ : EReal`).  Returns the `[min, max]` pair. -/
def project (poly : List Pt) (axis : Pt) : EReal × EReal :=
  poly.foldl
    (fun mm p =>
      let d : EReal := ((dotp p axis : ℝ) : EReal)
      (if d < mm.1 then d else mm.1, if mm.2 < d then d else mm.2))
    (⊤, ⊥)

/-- `polygonCentroid(poly)`: the vertex average (for an empty list the source
would produce `NaN`; the Lean junk value `0/0 = 0` is never reached by the
theorems below). -/
def polygonCentroid (poly : List Pt) : Pt :=
  ⟨(poly.map Pt.x).sum / (poly.length : ℝ), (poly.map Pt.y).sum / (poly.length : ℝ)⟩

/-- The axis loop of `satOverlap`: walks the candidate axes, returns `none` on
the first axis with a projection gap (`maxA <= minB || maxB <= minA`, the
early exit), otherwise tracks the smallest overlap and its axis. -/
def satLoop (polyA polyB : List Pt) : List Pt → EReal → Option Pt → Option (EReal × Option Pt)
  | [], minOverlap, mtvAxis => some (minOverlap, mtvAxis)
  | axis :: rest, minOverlap, mtvAxis =>
    let prA := project polyA axis
    let prB := project polyB axis
    if prA.2 ≤ prB.1 ∨ prB.2 ≤ prA.1 then none
    else
      let ov := min (prA.2 - prB.1) (prB.2 - prA.1)
      if ov < minOverlap then satLoop polyA polyB rest ov (some axis)
      else satLoop polyA polyB rest minOverlap mtvAxis

/-- The state of `satOverlap`'s loop after all axes (`minOverlap` starts at
`Infinity`, `mtvAxis` at `null`); `none` when the loop returned early. -/
def satData (polyA polyB : List Pt) : Option (EReal × Option Pt) :=
  satLoop polyA polyB (getAxes polyA ++ getAxes polyB) ⊤ none

/-- `satOverlap(polyA, polyB)`: SAT test returning the MTV, with the push
direction resolved against the centroid difference (`if (dot < 0)` negate). -/
def satOverlap (polyA polyB : List Pt) : Option Pt :=
  match satData polyA polyB with
  | none => none
  | some (_, none) => none
  | some (minOverlap, some mtvAxis) =>
    let centroidA := polygonCentroid polyA
    let centroidB := polygonCentroid polyB
    let dx := centroidA.x - centroidB.x
    let dy := centroidA.y - centroidB.y
    let dot := dx * mtvAxis.x + dy * mtvAxis.y
    let m := minOverlap.toReal
    if dot < 0 then some ⟨-mtvAxis.x * m, -mtvAxis.y * m⟩
    else some ⟨mtvAxis.x * m, mtvAxis.y * m⟩

/-- The two min/max accumulation loops of `aabbOverlap`, producing
`((minX, maxX), (minY, maxY))` with `Infinity` seeds. -/
def aabbRange (poly : List Pt) : (EReal × EReal) × (EReal × EReal) :=
  poly.foldl
    (fun r p =>
      let px : EReal := ((p.x : ℝ) : EReal)
      let py : EReal := ((p.y : ℝ) : EReal)
      ((if px < r.1.1 then px else r.1.1, if r.1.2 < px then px else r.1.2),
       (if py < r.2.1 then py else r.2.1, if r.2.2 < py then py else r.2.2)))
    ((⊤, ⊥), (⊤, ⊥))

/-- `aabbOverlap(polyA, polyB)`:
`!(maxAx <= minBx || maxBx <= minAx || maxAy <= minBy || maxBy <= minAy)`. -/
def aabbOverlap (polyA polyB : List Pt) : Bool :=
  let ra := aabbRange polyA
  let rb := aabbRange polyB
  if ra.1.2 ≤ rb.1.1 ∨ rb.1.2 ≤ ra.1.1 ∨ ra.2.2 ≤ rb.2.1 ∨ rb.2.2 ≤ ra.2.1 then false
  else true

/-- `resolveCollisions(movingPoly, colliders)`: AABB pre-filter, then SAT, with
all MTVs summed into `(totalPushX, totalPushY)`. -/
def resolveCollisions (movingPoly : List Pt) (colliders : List (List Pt)) : Pt :=
  colliders.foldl
    (fun total collider =>
      if aabbOverlap movingPoly collider then
        match satOverlap movingPoly collider with
        | some mtv => ⟨total.x + mtv.x, total.y + mtv.y⟩
        | none => total
      else total)
    ⟨0, 0⟩

/-- A boundary record `{x, y, width, height}`. -/
structure Boundary where
  x : ℝ
  y : ℝ
  width : ℝ
  height : ℝ

/-- The rectangle polygon `resolveBoundaryCollisions` builds for a boundary:
`[(b.x, b.y - h/2), (b.x + w, b.y - h/2), (b.x + w, b.y + h/2), (b.x, b.y + h/2)]`. -/
def boundaryPoly (b : Boundary) : List Pt :=
  [⟨b.x, b.y - b.height / 2⟩, ⟨b.x + b.width, b.y - b.height / 2⟩,
   ⟨b.x + b.width, b.y + b.height / 2⟩, ⟨b.x, b.y + b.height / 2⟩]

/-- `resolveBoundaryCollisions(movingPoly, boundaries)`: same mechanism as
`resolveCollisions` against the per-boundary rectangle polygons. -/
def resolveBoundaryCollisions (movingPoly : List Pt) (boundaries : List Boundary) : Pt :=
  boundaries.foldl
    (fun total b =>
      let bPoly := boundaryPoly b
      if aabbOverlap movingPoly bPoly then
        match satOverlap movingPoly bPoly with
        | some mtv => ⟨total.x + mtv.x, total.y + mtv.y⟩
        | none => total
      else total)
    ⟨0, 0⟩

/-- Modelled from the spec (claim C4's reading): the 4-point axis-aligned
rectangle centered at `(x, y)`, spanning `x - width/2 .. x + width/2`
horizontally and `y - height/2 .. y + height/2` vertically. -/
def boundaryPolyCentered (b : Boundary) : List Pt :=
  [⟨b.x - b.width / 2, b.y - b.height / 2⟩, ⟨b.x + b.width / 2, b.y - b.height / 2⟩,
   ⟨b.x + b.width / 2, b.y + b.height / 2⟩, ⟨b.x - b.width / 2, b.y + b.height / 2⟩]

/-- Translation of a polygon by a vector (claim language: "translating polyA
by the returned vector"). -/
def translatePoly (v : Pt) (poly : List Pt) : List Pt :=
  poly.map fun p => ⟨p.x + v.x, p.y + v.y⟩

/-- Cross product of `q - p` and `r - p` (orientation test). -/
def cross2 (p q r : Pt) : ℝ :=
  (q.x - p.x) * (r.y - p.y) - (q.y - p.y) * (r.x - p.x)

/-- Convexity of a vertex list: every vertex lies weakly on one fixed side of
every directed edge (standard convex-position test, either orientation). -/
def ConvexPoly (poly : List Pt) : Prop :=
  (∀ i < poly.length, ∀ j < poly.length,
      0 ≤ cross2 (poly.getD i ⟨0, 0⟩) (poly.getD ((i + 1) % poly.length) ⟨0, 0⟩)
        (poly.getD j ⟨0, 0⟩)) ∨
  (∀ i < poly.length, ∀ j < poly.length,
      cross2 (poly.getD i ⟨0, 0⟩) (poly.getD ((i + 1) % poly.length) ⟨0, 0⟩)
        (poly.getD j ⟨0, 0⟩) ≤ 0)

end Geometry

section DirectionModel

/-- First normalisation loop of `findClosestDirection`:
`while (normalized > 180) normalized -= 360`. -/
def normDown {α : Type} [LinearOrderedField α] [FloorRing α] (a : α) : α :=
  if h : 180 < a then normDown (a - 360) else a
termination_by (⌈a⌉).toNat
decreasing_by
  have h1 : (180 : ℤ) < ⌈a⌉ := by
    rw [Int.lt_ceil]; exact_mod_cast h
  have h2 : ⌈a - 360⌉ = ⌈a⌉ - 360 := by
    rw [show (360 : α) = ((360 : ℤ) : α) by norm_num, Int.ceil_sub_int]
  rw [h2]
  omega

/-- Second normalisation loop of `findClosestDirection`:
`while (normalized < -180) normalized += 360`. -/
def normUp {α : Type} [LinearOrderedField α] [FloorRing α] (a : α) : α :=
  if h : a < -180 then normUp (a + 360) else a
termination_by (-⌊a⌋).toNat
decreasing_by
  have h1 : ⌊a⌋ < -180 := by
    rw [Int.floor_lt]; exact_mod_cast h
  have h2 : ⌊a + 360⌋ = ⌊a⌋ + 360 := by
    rw [show (360 : α) = ((360 : ℤ) : α) by norm_num, Int.floor_add_int]
  rw [h2]
  omega

variable {α : Type} [LinearOrderedField α] [FloorRing α]

/-- Per-candidate distance of `findClosestDirection`:
`diff = Math.abs(normalized - dir); if (diff > 180) diff = 360 - diff`. -/
def circDiff (nrm dir : α) : α :=
  let diff := |nrm - dir|
  if 180 < diff then 360 - diff else diff

/-- The candidate loop of `findClosestDirection` (`minDiff` starts at
`Infinity`, modelled as `none`; a finite `diff` always beats it). -/
def findClosestLoop (nrm : α) : List α → α → Option α → α
  | [], closest, _ => closest
  | dir :: rest, closest, minDiff =>
    let diff := circDiff nrm dir
    match minDiff with
    | none => findClosestLoop nrm rest dir (some diff)
    | some m =>
      if diff < m then findClosestLoop nrm rest dir (some diff)
      else findClosestLoop nrm rest closest (some m)

/-- `Entity.findClosestDirection(angle)` over a direction set `angles`
(`closest` starts at `angles[0]`; the `headD 0` default is never relevant for
the non-empty sets the theorems quantify over). -/
def findClosestDirection (angles : List α) (angle : α) : α :=
  findClosestLoop (normUp (normDown angle)) angles (angles.headD 0) none

/-- The direction set built by the `Entity` constructor: `N` evenly spaced
angles `i * 360/N`, mapped into `(-180, 180]` by `angle > 180 ? angle - 360`,
sorted ascending (`.sort((a, b) => a - b)`). -/
def mkAngles (n : ℕ) : List α :=
  List.insertionSort (· ≤ ·)
    ((List.range n).map fun (i : ℕ) =>
      let step : α := 360 / (n : α)
      let angle := (i : α) * step
      if 180 < angle then angle - 360 else angle)

/-- The unique representative of an angle in `(-180, 180]` — the
normalisation as the spec/claims word it ("normalized to (-180,180] via
repeated ±360 addition"). -/
def specNormalize (a : α) : α := a - 360 * (⌈(a - 180) / 360⌉ : ℤ)

/-- The circular distance formula of the claims:
`min(|a-b|, 360-|a-b|)`. -/
def claimDist (a b : α) : α := min |a - b| (360 - |a - b|)

end DirectionModel

section AnimationTable

variable {α : Type} [DecidableEq α]

/-- An animation frame table `{ animName: { direction: [frames] } }`, as an
insertion-ordered association list; frames are opaque texture tokens. -/
def AnimTable (α : Type) : Type := List (String × List (α × List ℕ))

/-- `Object.keys(anim)[0]` followed by `anim[fallbackDir] || []`: the frame
list of the first direction entry, or `[]` when there is none. -/
def firstDirFrames (anim : List (α × List ℕ)) : List ℕ :=
  match anim.head? with
  | some e => e.2
  | none => []

/-- `Entity.getAnimationFrames(animName, direction)`: exact lookup if present
and non-empty, else fall back to the first available direction, else `[]`. -/
def getAnimationFrames (t : AnimTable α) (animName : String) (direction : α) : List ℕ :=
  match t.lookup animName with
  | none => []
  | some anim =>
    match anim.lookup direction with
    | some frames => if frames = [] then firstDirFrames anim else frames
    | none => firstDirFrames anim

/-- `Gear._getFrames(textureSet, animName, direction)` — same lookup/fallback
as `Entity.getAnimationFrames`, on the gear's own table. -/
def gearGetFrames (textureSet : AnimTable α) (animName : String) (direction : α) : List ℕ :=
  match textureSet.lookup animName with
  | none => []
  | some anim =>
    match anim.lookup direction with
    | some frames => if frames = [] then firstDirFrames anim else frames
    | none => firstDirFrames anim

/-- The character's `_textureMap` reverse lookup (frames array → owning
`(animName, direction)`); object identity of the frame arrays is modelled as
value equality, exact when the table's frame lists are pairwise distinct. -/
def reverseLookup (t : AnimTable α) (frames : List ℕ) : Option (String × α) :=
  t.findSome? fun e =>
    e.2.findSome? fun de => if de.2 = frames then some (e.1, de.1) else none

end AnimationTable

section GearSync

variable {α : Type} [DecidableEq α]

/-- An animated sprite as the gear sync sees it: its frame list and current
frame index (`gotoAndStop(f)` sets `currentFrame := f`;
`totalFrames = textures.length`). -/
structure GearSprite where
  textures : List ℕ
  currentFrame : ℕ

/-- The mutable state of a `Gear` overlay relevant to `_sync`. -/
structure GearState (α : Type) where
  sprite : Option GearSprite
  shadowSprite : Option GearSprite
  tex : AnimTable α
  shadowTex : AnimTable α
  currentAnimName : Option String
  currentDirection : Option α

/-- `Gear._sync()` (the variant holding `_currentAnimName` /
`_currentDirection`): early return without character sprite or gear sprite;
on a change of the character's displayed `(animName, direction)` swap the
gear's (and shadow's) frame lists when non-empty; then always mirror the
character's frame index clamped by `Math.min(charFrame, totalFrames - 1)`
(`ℕ` truncated subtraction agrees for the non-empty frame lists used here). -/
def gearSync (g : GearState α) (charTable : AnimTable α) (charSprite : Option GearSprite) :
    GearState α :=
  match charSprite, g.sprite with
  | some cs, some gs =>
    let g1 :=
      match reverseLookup charTable cs.textures with
      | some (animName, direction) =>
        if some animName ≠ g.currentAnimName ∨ some direction ≠ g.currentDirection then
          let frames := gearGetFrames g.tex animName direction
          let g' : GearState α :=
            { g with
              currentAnimName := some animName
              currentDirection := some direction
              sprite := if frames = [] then some gs else some { gs with textures := frames } }
          match g.shadowSprite with
          | some ss =>
            let shadowFrames := gearGetFrames g.shadowTex animName direction
            if shadowFrames = [] then g'
            else { g' with shadowSprite := some { ss with textures := shadowFrames } }
          | none => g'
        else g
      | none => g
    let charFrame := cs.currentFrame
    let g2 :=
      match g1.sprite with
      | some gs1 =>
        { g1 with sprite := some { gs1 with currentFrame := min charFrame (gs1.textures.length - 1) } }
      | none => g1
    match g2.shadowSprite with
    | some ss1 =>
      { g2 with shadowSprite := some { ss1 with currentFrame := min charFrame (ss1.textures.length - 1) } }
    | none => g2
  | _, _ => g

end GearSync

noncomputable section Movement

/-- `Math.atan2(y, x)`, idealised as the argument of the complex number
`x + y*i` (range `(-π, π]`). -/
def atan2 (y x : ℝ) : ℝ := Complex.arg ⟨x, y⟩

/-- The animated sprite state a `Character` manipulates: frame list, current
frame, loop flag and signed playback speed. -/
structure SpriteState where
  textures : List ℕ
  currentFrame : ℕ
  loop : Bool
  animationSpeed : ℝ

/-- `Character` state: position, movement target, walk flag, speed, facing
direction with its direction set, the frame table, the sprite, the `animFps`
table and the health/mana pools. -/
structure CharState where
  x : ℝ
  y : ℝ
  targetPosition : Option (ℝ × ℝ)
  isWalking : Bool
  idlePingPongForward : Bool
  speed : ℝ
  direction : ℝ
  angles : List ℝ
  textures : AnimTable ℝ
  sprite : Option SpriteState
  animFps : List (String × ℝ)
  currentHealth : ℝ
  maxHealth : ℝ
  healthRegen : ℝ
  currentMana : ℝ
  maxMana : ℝ
  manaRegen : ℝ

/-- `Entity.getAnimFps(animName)`: `this.animFps[animName] ?? 30`. -/
def getAnimFps (fps : List (String × ℝ)) (animName : String) : ℝ :=
  (fps.lookup animName).getD 30

/-- `Character.startIdlePingPong()`: with at most one idle frame just
`gotoAndStop(0)`; otherwise swap to the idle frames and restart forward play.
(The `onComplete` reversal callback is event-driven and outside the per-call
state step modelled here; `onAnimationChanged` is a no-op on `Character`.) -/
def startIdlePingPong (c : CharState) : CharState :=
  match c.sprite with
  | none => c
  | some spr =>
    let idleFrames := getAnimationFrames c.textures "idle" c.direction
    if idleFrames.length ≤ 1 then
      { c with sprite := some { spr with currentFrame := 0 } }
    else
      { c with
        idlePingPongForward := true
        sprite := some { spr with
          textures := idleFrames
          loop := false
          animationSpeed := getAnimFps c.animFps "idle" / 60
          currentFrame := 0 } }

/-- `Character.startWalkAnimation()`: swap to the walk frames for the current
direction, resuming at `savedFrame % walkFrames.length`, and set the walking
flag; warn-and-return when no walk frames exist. -/
def startWalkAnimation (c : CharState) : CharState :=
  match c.sprite with
  | none => c
  | some spr =>
    let walkFrames := getAnimationFrames c.textures "walk" c.direction
    if walkFrames = [] then c
    else
      let savedFrame := if c.isWalking then spr.currentFrame else 0
      { c with
        isWalking := true
        sprite := some { spr with
          textures := walkFrames
          loop := true
          animationSpeed := getAnimFps c.animFps "walk" / 60
          currentFrame := savedFrame % walkFrames.length } }

/-- `Character.stopWalkAnimation()`: clear the walking flag and return to the
idle ping-pong when idle frames exist. -/
def stopWalkAnimation (c : CharState) : CharState :=
  if c.isWalking = false then c
  else
    let c1 := { c with isWalking := false }
    let idleFrames := getAnimationFrames c1.textures "idle" c1.direction
    match c1.sprite with
    | some spr =>
      if idleFrames = [] then c1
      else startIdlePingPong { c1 with sprite := some { spr with textures := idleFrames } }
    | none => c1

/-- `Player.moveToward(worldX, worldY)`: set the target, face the closest
direction to `atan2(dy, dx)` in degrees, and (re)start the walk animation when
not walking or the direction changed. -/
def moveToward (c : CharState) (worldX worldY : ℝ) : CharState :=
  let dx := worldX - c.x
  let dy := worldY - c.y
  let angle := atan2 dy dx * (180 / Real.pi)
  let newDirection := findClosestDirection c.angles angle
  let c1 := { c with targetPosition := some (worldX, worldY) }
  if c.isWalking = false ∨ newDirection ≠ c.direction then
    startWalkAnimation { c1 with direction := newDirection }
  else c1

/-- `Character.update(delta)`: regenerate health/mana, then advance toward the
target — snap-check `distance < 5` first, else move by
`ratio = min(effectiveSpeed * delta/60 / distance, 1)` of the remaining vector
with the elliptical speed `sqrt((speed*cos θ)² + (speed/2 * sin θ)²)`.
(The `isNaN` guard is unreachable over `ℝ`, which has no NaN.) -/
def update (c : CharState) (delta : ℝ) : CharState :=
  let dt := delta / 60
  let c :=
    { c with
      currentHealth :=
        if 0 < c.healthRegen ∧ c.currentHealth < c.maxHealth then
          min c.maxHealth (c.currentHealth + c.healthRegen * dt)
        else c.currentHealth
      currentMana :=
        if 0 < c.manaRegen ∧ c.currentMana < c.maxMana then
          min c.maxMana (c.currentMana + c.manaRegen * dt)
        else c.currentMana }
  match c.targetPosition with
  | none => c
  | some target =>
    let dx := target.1 - c.x
    let dy := target.2 - c.y
    let distance := Real.sqrt (dx * dx + dy * dy)
    if distance < 5 then stopWalkAnimation { c with targetPosition := none }
    else
      let angle := atan2 dy dx
      let effectiveSpeed :=
        Real.sqrt ((c.speed * Real.cos angle) ^ 2 + (c.speed / 2 * Real.sin angle) ^ 2)
      let sp := effectiveSpeed * (delta / 60)
      let ratio := min (sp / distance) 1
      { c with x := c.x + dx * ratio, y := c.y + dy * ratio }

end Movement

noncomputable section GeometryLemmas

/-- Proof infrastructure: the real-valued running minimum of projected dots. -/
def projLo (l : List Pt) (a : Pt) (init : ℝ) : ℝ :=
  l.foldl (fun m p => if dotp p a < m then dotp p a else m) init

/-- Proof infrastructure: the real-valued running maximum of projected dots. -/
def projHi (l : List Pt) (a : Pt) (init : ℝ) : ℝ :=
  l.foldl (fun m p => if m < dotp p a then dotp p a else m) init

theorem project_nil (a : Pt) : project [] a = (⊤, ⊥) := rfl

theorem project_loop (l : List Pt) (a : Pt) (x y : ℝ) :
    l.foldl
      (fun mm p =>
        let d : EReal := ((dotp p a : ℝ) : EReal)
        (if d < mm.1 then d else mm.1, if mm.2 < d then d else mm.2))
      (((x : ℝ) : EReal), ((y : ℝ) : EReal)) =
      (((projLo l a x : ℝ) : EReal), ((projHi l a y : ℝ) : EReal)) := by
  induction l generalizing x y with
  | nil => simp [projLo, projHi]
  | cons p l ih =>
    have hx : (if ((dotp p a : ℝ) : EReal) < ((x : ℝ) : EReal)
          then ((dotp p a : ℝ) : EReal) else ((x : ℝ) : EReal)) =
        (((if dotp p a < x then dotp p a else x : ℝ)) : EReal) := by
      by_cases hc : dotp p a < x <;> simp [EReal.coe_lt_coe_iff, hc]
    have hy : (if ((y : ℝ) : EReal) < ((dotp p a : ℝ) : EReal)
          then ((dotp p a : ℝ) : EReal) else ((y : ℝ) : EReal)) =
        (((if y < dotp p a then dotp p a else y : ℝ)) : EReal) := by
      by_cases hc : y < dotp p a <;> simp [EReal.coe_lt_coe_iff, hc]
    simp only [List.foldl_cons]
    rw [hx, hy]
    simpa [projLo, projHi] using ih (if dotp p a < x then dotp p a else x)
      (if y < dotp p a then dotp p a else y)

theorem project_cons (p : Pt) (l : List Pt) (a : Pt) :
    project (p :: l) a =
      (((projLo l a (dotp p a) : ℝ) : EReal), ((projHi l a (dotp p a) : ℝ) : EReal)) := by
  have h1 : (if ((dotp p a : ℝ) : EReal) < (⊤ : EReal)
        then ((dotp p a : ℝ) : EReal) else (⊤ : EReal)) = ((dotp p a : ℝ) : EReal) :=
    if_pos (EReal.coe_lt_top _)
  have h2 : (if (⊥ : EReal) < ((dotp p a : ℝ) : EReal)
        then ((dotp p a : ℝ) : EReal) else (⊥ : EReal)) = ((dotp p a : ℝ) : EReal) :=
    if_pos (EReal.bot_lt_coe _)
  show List.foldl _ _ (p :: l) = _
  simp only [List.foldl_cons]
  rw [h1, h2]
  exact project_loop l a _ _

/-- Proof infrastructure: the gap condition of `satOverlap`'s early exit is
absent on an axis. -/
def noGapOn (polyA polyB : List Pt) (axis : Pt) : Prop :=
  ¬((project polyA axis).2 ≤ (project polyB axis).1 ∨
    (project polyB axis).2 ≤ (project polyA axis).1)

/-- Proof infrastructure: the overlap amount `satOverlap` computes on an
axis. -/
def overlapOn (polyA polyB : List Pt) (axis : Pt) : EReal :=
  min ((project polyA axis).2 - (project polyB axis).1)
    ((project polyB axis).2 - (project polyA axis).1)

theorem satLoop_none_of_gap (polyA polyB : List Pt) (l : List Pt) (axis : Pt)
    (hmem : axis ∈ l) (hgap : ¬noGapOn polyA polyB axis) (mo : EReal) (mtv : Option Pt) :
    satLoop polyA polyB l mo mtv = none := by
  induction l generalizing mo mtv with
  | nil => cases hmem
  | cons b l ih =>
    by_cases hb : (project polyA b).2 ≤ (project polyB b).1 ∨
        (project polyB b).2 ≤ (project polyA b).1
    · simp [satLoop, hb]
    · have hmem' : axis ∈ l := by
        rcases List.mem_cons.mp hmem with h | h
        · exact absurd (h ▸ hb) (by simpa [noGapOn, h] using hgap)
        · exact h
      simp only [satLoop, hb, if_false]
      split <;> exact ih hmem' _ _

theorem satLoop_some (polyA polyB : List Pt) (l : List Pt) (mo0 : EReal) (mtv0 : Option Pt)
    (mo : EReal) (mtv : Option Pt)
    (h : satLoop polyA polyB l mo0 mtv0 = some (mo, mtv)) :
    (∀ b ∈ l, noGapOn polyA polyB b) ∧
      ((mo = mo0 ∧ mtv = mtv0) ∨
        ∃ ax ∈ l, mtv = some ax ∧ mo = overlapOn polyA polyB ax) := by
  induction l generalizing mo0 mtv0 with
  | nil =>
    simp only [satLoop, Option.some_inj, Prod.mk.injEq] at h
    exact ⟨by simp, Or.inl ⟨h.1.symm, h.2.symm⟩⟩
  | cons b l ih =>
    by_cases hb : (project polyA b).2 ≤ (project polyB b).1 ∨
        (project polyB b).2 ≤ (project polyA b).1
    · simp [satLoop, hb] at h
    · simp only [satLoop, hb, if_false] at h
      split at h
      · rcases ih _ _ h with ⟨hng, hcase⟩
        refine ⟨?_, ?_⟩
        · intro c hc
          rcases List.mem_cons.mp hc with rfl | hc
          · exact hb
          · exact hng c hc
        rcases hcase with ⟨hmo, hmtv⟩ | ⟨ax, hax, hmtv, hmo⟩
        · exact Or.inr ⟨b, by simp, hmtv, by rw [hmo]; rfl⟩
        · exact Or.inr ⟨ax, by simp [hax], hmtv, hmo⟩
      · rcases ih _ _ h with ⟨hng, hcase⟩
        refine ⟨?_, ?_⟩
        · intro c hc
          rcases List.mem_cons.mp hc with rfl | hc
          · exact hb
          · exact hng c hc
        rcases hcase with ⟨hmo, hmtv⟩ | ⟨ax, hax, hmtv, hmo⟩
        · exact Or.inl ⟨hmo, hmtv⟩
        · exact Or.inr ⟨ax, by simp [hax], hmtv, hmo⟩

theorem satData_some (polyA polyB : List Pt) (mo : EReal) (ax : Pt)
    (h : satData polyA polyB = some (mo, some ax)) :
    ax ∈ getAxes polyA ++ getAxes polyB ∧ mo = overlapOn polyA polyB ax ∧
      ∀ b ∈ getAxes polyA ++ getAxes polyB, noGapOn polyA polyB b := by
  rcases satLoop_some _ _ _ _ _ _ _ h with ⟨hng, hcase⟩
  rcases hcase with ⟨_, hmtv⟩ | ⟨ax', hax', hmtv, hmo⟩
  · cases hmtv
  · cases hmtv
    exact ⟨hax', hmo, hng⟩

theorem satOverlap_none_of_gap (polyA polyB : List Pt) (axis : Pt)
    (hmem : axis ∈ getAxes polyA ++ getAxes polyB)
    (hgap : (project polyA axis).2 ≤ (project polyB axis).1 ∨
      (project polyB axis).2 ≤ (project polyA axis).1) :
    satOverlap polyA polyB = none := by
  have : satData polyA polyB = none :=
    satLoop_none_of_gap _ _ _ _ hmem (by simp [noGapOn, hgap]) _ _
  simp [satOverlap, this]

theorem noGapOn_nonempty (polyA polyB : List Pt) (axis : Pt)
    (h : noGapOn polyA polyB axis) : polyA ≠ [] ∧ polyB ≠ [] := by
  constructor
  · rintro rfl
    exact h (Or.inl (by simp [project_nil]))
  · rintro rfl
    exact h (Or.inr (by simp [project_nil]))

theorem noGapOn_reals (polyA polyB : List Pt) (axis : Pt) (h : noGapOn polyA polyB axis) :
    ∃ loA hiA loB hiB : ℝ,
      project polyA axis = (((loA : ℝ) : EReal), ((hiA : ℝ) : EReal)) ∧
      project polyB axis = (((loB : ℝ) : EReal), ((hiB : ℝ) : EReal)) ∧
      loB < hiA ∧ loA < hiB := by
  obtain ⟨hA, hB⟩ := noGapOn_nonempty _ _ _ h
  obtain ⟨p, l, rfl⟩ := List.exists_cons_of_ne_nil hA
  obtain ⟨q, r, rfl⟩ := List.exists_cons_of_ne_nil hB
  refine ⟨projLo l axis (dotp p axis), projHi l axis (dotp p axis),
    projLo r axis (dotp q axis), projHi r axis (dotp q axis),
    project_cons _ _ _, project_cons _ _ _, ?_, ?_⟩
  · have := h
    rw [noGapOn, project_cons, project_cons] at this
    push_neg at this
    simpa [EReal.coe_lt_coe_iff] using this.1
  · have := h
    rw [noGapOn, project_cons, project_cons] at this
    push_neg at this
    simpa [EReal.coe_lt_coe_iff] using this.2

theorem overlapOn_pos (polyA polyB : List Pt) (axis : Pt) (h : noGapOn polyA polyB axis) :
    ∃ r : ℝ, overlapOn polyA polyB axis = ((r : ℝ) : EReal) ∧ 0 < r := by
  obtain ⟨loA, hiA, loB, hiB, hA, hB, h1, h2⟩ := noGapOn_reals _ _ _ h
  refine ⟨min (hiA - loB) (hiB - loA), ?_, by rw [lt_min_iff]; exact ⟨by linarith, by linarith⟩⟩
  rw [overlapOn, hA, hB]
  rw [show ((hiA : ℝ) : EReal) - ((loB : ℝ) : EReal) = (((hiA - loB : ℝ)) : EReal) by
        rw [← EReal.coe_sub],
      show ((hiB : ℝ) : EReal) - ((loA : ℝ) : EReal) = (((hiB - loA : ℝ)) : EReal) by
        rw [← EReal.coe_sub]]
  rcases le_total (hiA - loB) (hiB - loA) with hle | hle
  · rw [min_eq_left hle, min_eq_left (by exact_mod_cast hle)]
  · rw [min_eq_right hle, min_eq_right (by exact_mod_cast hle)]

theorem mem_getAxes (poly : List Pt) (ax : Pt) (h : ax ∈ getAxes poly) :
    ∃ ex ey : ℝ, ex * ex + ey * ey ≠ 0 ∧
      ax = ⟨-ey / Real.sqrt (ex * ex + ey * ey), ex / Real.sqrt (ex * ex + ey * ey)⟩ := by
  rw [getAxes, List.mem_filterMap] at h
  obtain ⟨i, _, hi⟩ := h
  simp only at hi
  split at hi
  · cases hi
  · next hlen =>
    refine ⟨_, _, ?_, (Option.some_inj.mp hi).symm⟩
    intro hzero
    exact hlen (by rw [hzero, Real.sqrt_zero])

theorem axis_unit (poly : List Pt) (ax : Pt) (h : ax ∈ getAxes poly) :
    ax.x * ax.x + ax.y * ax.y = 1 := by
  obtain ⟨ex, ey, hne, rfl⟩ := mem_getAxes poly ax h
  have hnn : 0 ≤ ex * ex + ey * ey := by nlinarith [sq_nonneg ex, sq_nonneg ey]
  have hsq : Real.sqrt (ex * ex + ey * ey) * Real.sqrt (ex * ex + ey * ey) =
      ex * ex + ey * ey := Real.mul_self_sqrt hnn
  have hs : Real.sqrt (ex * ex + ey * ey) ≠ 0 := by
    intro h0
    exact hne (by rw [← hsq, h0, mul_zero])
  show -ey / Real.sqrt (ex * ex + ey * ey) * (-ey / Real.sqrt (ex * ex + ey * ey)) +
      ex / Real.sqrt (ex * ex + ey * ey) * (ex / Real.sqrt (ex * ex + ey * ey)) = 1
  rw [show -ey / Real.sqrt (ex * ex + ey * ey) * (-ey / Real.sqrt (ex * ex + ey * ey)) +
      ex / Real.sqrt (ex * ex + ey * ey) * (ex / Real.sqrt (ex * ex + ey * ey)) =
      (ex * ex + ey * ey) /
        (Real.sqrt (ex * ex + ey * ey) * Real.sqrt (ex * ex + ey * ey)) by ring, hsq]
  exact div_self hne

theorem dotp_translate (p v a : Pt) :
    dotp ⟨p.x + v.x, p.y + v.y⟩ a = dotp p a + dotp v a := by
  simp [dotp]; ring

theorem projLo_translate (l : List Pt) (v a : Pt) (init : ℝ) :
    projLo (translatePoly v l) a (init + dotp v a) = projLo l a init + dotp v a := by
  induction l generalizing init with
  | nil => simp [projLo, translatePoly]
  | cons p l ih =>
    simp only [translatePoly, List.map_cons, projLo, List.foldl_cons] at *
    rw [dotp_translate]
    by_cases hc : dotp p a < init
    · rw [if_pos (by linarith), if_pos hc]
      exact ih _
    · rw [if_neg (by intro hlt; exact hc (by linarith)), if_neg hc]
      exact ih _

theorem projHi_translate (l : List Pt) (v a : Pt) (init : ℝ) :
    projHi (translatePoly v l) a (init + dotp v a) = projHi l a init + dotp v a := by
  induction l generalizing init with
  | nil => simp [projHi, translatePoly]
  | cons p l ih =>
    simp only [translatePoly, List.map_cons, projHi, List.foldl_cons] at *
    rw [dotp_translate]
    by_cases hc : init < dotp p a
    · rw [if_pos (by linarith), if_pos hc]
      exact ih _
    · rw [if_neg (by intro hlt; exact hc (by linarith)), if_neg hc]
      exact ih _

theorem project_translate (p : Pt) (l : List Pt) (v a : Pt) :
    project (translatePoly v (p :: l)) a =
      (((projLo l a (dotp p a) + dotp v a : ℝ) : EReal),
       ((projHi l a (dotp p a) + dotp v a : ℝ) : EReal)) := by
  show project (⟨p.x + v.x, p.y + v.y⟩ :: translatePoly v l) a = _
  rw [project_cons, dotp_translate, projLo_translate, projHi_translate]

theorem aabbRange_fst (poly : List Pt) : (aabbRange poly).1 = project poly ⟨1, 0⟩ := by
  have key : ∀ acc1 acc2 : EReal × EReal,
      (poly.foldl
        (fun r p =>
          let px : EReal := ((p.x : ℝ) : EReal)
          let py : EReal := ((p.y : ℝ) : EReal)
          ((if px < r.1.1 then px else r.1.1, if r.1.2 < px then px else r.1.2),
           (if py < r.2.1 then py else r.2.1, if r.2.2 < py then py else r.2.2)))
        (acc1, acc2)).1 =
      poly.foldl
        (fun mm p =>
          let d : EReal := ((dotp p ⟨1, 0⟩ : ℝ) : EReal)
          (if d < mm.1 then d else mm.1, if mm.2 < d then d else mm.2)) acc1 := by
    induction poly with
    | nil => intro acc1 acc2; rfl
    | cons p l ih =>
      intro acc1 acc2
      simp only [List.foldl_cons]
      rw [show dotp p ⟨1, 0⟩ = p.x by simp [dotp]]
      exact ih _ _
  exact key (⊤, ⊥) (⊤, ⊥)

theorem aabbRange_snd (poly : List Pt) : (aabbRange poly).2 = project poly ⟨0, 1⟩ := by
  have key : ∀ acc1 acc2 : EReal × EReal,
      (poly.foldl
        (fun r p =>
          let px : EReal := ((p.x : ℝ) : EReal)
          let py : EReal := ((p.y : ℝ) : EReal)
          ((if px < r.1.1 then px else r.1.1, if r.1.2 < px then px else r.1.2),
           (if py < r.2.1 then py else r.2.1, if r.2.2 < py then py else r.2.2)))
        (acc1, acc2)).2 =
      poly.foldl
        (fun mm p =>
          let d : EReal := ((dotp p ⟨0, 1⟩ : ℝ) : EReal)
          (if d < mm.1 then d else mm.1, if mm.2 < d then d else mm.2)) acc2 := by
    induction poly with
    | nil => intro acc1 acc2; rfl
    | cons p l ih =>
      intro acc1 acc2
      simp only [List.foldl_cons]
      rw [show dotp p ⟨0, 1⟩ = p.y by simp [dotp]]
      exact ih _ _
  exact key (⊤, ⊥) (⊤, ⊥)

theorem aabbOverlap_false_iff (polyA polyB : List Pt) :
    aabbOverlap polyA polyB = false ↔
      ((project polyA ⟨1, 0⟩).2 ≤ (project polyB ⟨1, 0⟩).1 ∨
       (project polyB ⟨1, 0⟩).2 ≤ (project polyA ⟨1, 0⟩).1) ∨
      ((project polyA ⟨0, 1⟩).2 ≤ (project polyB ⟨0, 1⟩).1 ∨
       (project polyB ⟨0, 1⟩).2 ≤ (project polyA ⟨0, 1⟩).1) := by
  rw [aabbOverlap]
  rw [← aabbRange_fst, ← aabbRange_fst, ← aabbRange_snd, ← aabbRange_snd]
  split
  · next hcond => simp only [eq_self_iff_true, true_iff]; tauto
  · next hcond => simp only [Bool.true_eq_false, false_iff]; tauto

theorem ereal_min_coe (a b : ℝ) :
    min ((a : ℝ) : EReal) ((b : ℝ) : EReal) = (((min a b : ℝ)) : EReal) := by
  exact_mod_cast rfl

theorem satLoop_nil (polyA polyB : List Pt) (mo : EReal) (mtv : Option Pt) :
    satLoop polyA polyB [] mo mtv = some (mo, mtv) := rfl

theorem satLoop_cons_gap (polyA polyB : List Pt) (ax : Pt) (rest : List Pt)
    (mo : EReal) (mtv : Option Pt)
    (h : (project polyA ax).2 ≤ (project polyB ax).1 ∨
      (project polyB ax).2 ≤ (project polyA ax).1) :
    satLoop polyA polyB (ax :: rest) mo mtv = none := by
  simp only [satLoop]
  rw [if_pos h]

theorem satLoop_cons_update (polyA polyB : List Pt) (ax : Pt) (rest : List Pt)
    (mo : EReal) (mtv : Option Pt) (ov : EReal)
    (h1 : ¬((project polyA ax).2 ≤ (project polyB ax).1 ∨
      (project polyB ax).2 ≤ (project polyA ax).1))
    (hov : overlapOn polyA polyB ax = ov) (h2 : ov < mo) :
    satLoop polyA polyB (ax :: rest) mo mtv = satLoop polyA polyB rest ov (some ax) := by
  simp only [satLoop]
  rw [if_neg h1, show (min ((project polyA ax).2 - (project polyB ax).1)
    ((project polyB ax).2 - (project polyA ax).1)) = ov from hov, if_pos h2]

theorem satLoop_cons_keep (polyA polyB : List Pt) (ax : Pt) (rest : List Pt)
    (mo : EReal) (mtv : Option Pt) (ov : EReal)
    (h1 : ¬((project polyA ax).2 ≤ (project polyB ax).1 ∨
      (project polyB ax).2 ≤ (project polyA ax).1))
    (hov : overlapOn polyA polyB ax = ov) (h2 : ¬(ov < mo)) :
    satLoop polyA polyB (ax :: rest) mo mtv = satLoop polyA polyB rest mo mtv := by
  simp only [satLoop]
  rw [if_neg h1, show (min ((project polyA ax).2 - (project polyB ax).1)
    ((project polyB ax).2 - (project polyA ax).1)) = ov from hov, if_neg h2]

/-- Proof infrastructure: the MTV contribution of a single collider inside
`resolveCollisions` (zero when the AABB filter rejects or SAT reports no
overlap). -/
def mtvContrib (movingPoly collider : List Pt) : Pt :=
  if aabbOverlap movingPoly collider then
    match satOverlap movingPoly collider with
    | some mtv => mtv
    | none => ⟨0, 0⟩
  else ⟨0, 0⟩

theorem resolveCollisions_eq_sum (movingPoly : List Pt) (colliders : List (List Pt)) :
    resolveCollisions movingPoly colliders =
      ⟨(colliders.map fun c => (mtvContrib movingPoly c).x).sum,
       (colliders.map fun c => (mtvContrib movingPoly c).y).sum⟩ := by
  have key : ∀ (cols : List (List Pt)) (t : Pt),
      cols.foldl
        (fun total collider =>
          if aabbOverlap movingPoly collider then
            match satOverlap movingPoly collider with
            | some mtv => (⟨total.x + mtv.x, total.y + mtv.y⟩ : Pt)
            | none => total
          else total) t =
      ⟨t.x + (cols.map fun c => (mtvContrib movingPoly c).x).sum,
       t.y + (cols.map fun c => (mtvContrib movingPoly c).y).sum⟩ := by
    intro cols
    induction cols with
    | nil => intro t; simp [Pt.ext_xy]
    | cons c cols ih =>
      intro t
      simp only [List.foldl_cons, List.map_cons, List.sum_cons]
      by_cases hab : aabbOverlap movingPoly c
      · rw [mtvContrib, if_pos hab]
        cases hsat : satOverlap movingPoly c with
        | none =>
          simp only [hab, if_true, hsat]
          rw [ih t]
          exact Pt.ext_xy _ _ (by simp) (by simp)
        | some mtv =>
          simp only [hab, if_true, hsat]
          rw [ih ⟨t.x + mtv.x, t.y + mtv.y⟩]
          exact Pt.ext_xy _ _ (by simp; ring) (by simp; ring)
      · rw [mtvContrib, if_neg hab]
        simp only [Bool.not_eq_true] at hab
        simp only [hab, Bool.false_eq_true, if_false]
        rw [ih t]
        exact Pt.ext_xy _ _ (by simp) (by simp)
  rw [resolveCollisions, key]
  exact Pt.ext_xy _ _ (by simp) (by simp)

end GeometryLemmas

noncomputable section ConcreteInstances

theorem sqrt_eval (a b : ℝ) (h0 : 0 ≤ b) (h : b ^ 2 = a) : Real.sqrt a = b := by
  rw [← h]; exact Real.sqrt_sq h0

/-- Unit square centered at the origin (claims C1/C2/C10). -/
noncomputable def sqA : List Pt :=
  [⟨(-(1/2)), (-(1/2))⟩, ⟨(1/2), (-(1/2))⟩, ⟨(1/2), (1/2)⟩, ⟨(-(1/2)), (1/2)⟩]

/-- Unit square centered at (0.5, 0) (claim C1, 50% overlap). -/
noncomputable def sqB : List Pt :=
  [⟨0, (-(1/2))⟩, ⟨1, (-(1/2))⟩, ⟨1, (1/2)⟩, ⟨0, (1/2)⟩]

/-- Unit square centered at (3, 0) (claim C1, no overlap). -/
noncomputable def sqFar : List Pt :=
  [⟨(5/2), (-(1/2))⟩, ⟨(7/2), (-(1/2))⟩, ⟨(7/2), (1/2)⟩, ⟨(5/2), (1/2)⟩]

/-- Unit square centered at (1, 0), sharing an edge with sqA (claim C10). -/
noncomputable def sqTouch : List Pt :=
  [⟨(1/2), (-(1/2))⟩, ⟨(3/2), (-(1/2))⟩, ⟨(3/2), (1/2)⟩, ⟨(1/2), (1/2)⟩]

/-- Downward-pointing triangle (claim C2 counterexample, moving). -/
noncomputable def triA : List Pt :=
  [⟨0, (-3)⟩, ⟨8, 3⟩, ⟨(-8), 3⟩]

/-- Upward-pointing triangle (claim C2 counterexample, static). -/
noncomputable def triB : List Pt :=
  [⟨(-8), (-2)⟩, ⟨8, (-2)⟩, ⟨0, 4⟩]

/-- triA translated by the MTV (0, 5) returned on it against triB. -/
noncomputable def triAshift : List Pt :=
  [⟨0, 2⟩, ⟨8, 8⟩, ⟨(-8), 8⟩]

/-- Concave dart moving polygon (claim C3 counterexample). -/
noncomputable def dartM : List Pt :=
  [⟨(-2), 0⟩, ⟨10, 5⟩, ⟨(25/4), 0⟩, ⟨10, (-5)⟩]

/-- Convex rhombus collider touching dartM bounding box (claim C3 counterexample). -/
noncomputable def rhC : List Pt :=
  [⟨10, 0⟩, ⟨13, 4⟩, ⟨16, 0⟩, ⟨13, (-4)⟩]

/-- Small moving rectangle left of the origin (claim C4 counterexample). -/
noncomputable def movC4 : List Pt :=
  [⟨(-(3/5)), (-(1/10))⟩, ⟨(-(2/5)), (-(1/10))⟩, ⟨(-(2/5)), (1/10)⟩, ⟨(-(3/5)), (1/10)⟩]

/-- The rectangle the claim C4 describes for the boundary (0,0,2,2): centered at the origin. -/
noncomputable def centC4 : List Pt :=
  [⟨(-1), (-1)⟩, ⟨1, (-1)⟩, ⟨1, 1⟩, ⟨(-1), 1⟩]

/-- The rectangle the code actually builds for the boundary (0,0,2,2): left edge at x = 0. -/
noncomputable def rectC4 : List Pt :=
  [⟨0, (-1)⟩, ⟨2, (-1)⟩, ⟨2, 1⟩, ⟨0, 1⟩]

theorem getAxes_sqA : getAxes sqA = [⟨0, 1⟩, ⟨(-1), 0⟩, ⟨0, (-1)⟩, ⟨1, 0⟩] := by
  have sq0 : Real.sqrt 1 = 1 :=
    sqrt_eval 1 1 (by norm_num) (by norm_num)
  simp only [getAxes, sqA, List.length_cons, List.length_nil]
  norm_num [List.range_succ, List.filterMap, List.getD, List.get?, sq0]

theorem getAxes_sqB : getAxes sqB = [⟨0, 1⟩, ⟨(-1), 0⟩, ⟨0, (-1)⟩, ⟨1, 0⟩] := by
  have sq0 : Real.sqrt 1 = 1 :=
    sqrt_eval 1 1 (by norm_num) (by norm_num)
  simp only [getAxes, sqB, List.length_cons, List.length_nil]
  norm_num [List.range_succ, List.filterMap, List.getD, List.get?, sq0]

theorem getAxes_sqFar : getAxes sqFar = [⟨0, 1⟩, ⟨(-1), 0⟩, ⟨0, (-1)⟩, ⟨1, 0⟩] := by
  have sq0 : Real.sqrt 1 = 1 :=
    sqrt_eval 1 1 (by norm_num) (by norm_num)
  simp only [getAxes, sqFar, List.length_cons, List.length_nil]
  norm_num [List.range_succ, List.filterMap, List.getD, List.get?, sq0]

theorem getAxes_sqTouch : getAxes sqTouch = [⟨0, 1⟩, ⟨(-1), 0⟩, ⟨0, (-1)⟩, ⟨1, 0⟩] := by
  have sq0 : Real.sqrt 1 = 1 :=
    sqrt_eval 1 1 (by norm_num) (by norm_num)
  simp only [getAxes, sqTouch, List.length_cons, List.length_nil]
  norm_num [List.range_succ, List.filterMap, List.getD, List.get?, sq0]

theorem getAxes_triA : getAxes triA = [⟨(-(3/5)), (4/5)⟩, ⟨0, (-1)⟩, ⟨(3/5), (4/5)⟩] := by
  have sq0 : Real.sqrt 100 = 10 :=
    sqrt_eval 100 10 (by norm_num) (by norm_num)
  have sq1 : Real.sqrt 256 = 16 :=
    sqrt_eval 256 16 (by norm_num) (by norm_num)
  simp only [getAxes, triA, List.length_cons, List.length_nil]
  norm_num [List.range_succ, List.filterMap, List.getD, List.get?, sq0, sq1]

theorem getAxes_triB : getAxes triB = [⟨0, 1⟩, ⟨(-(3/5)), (-(4/5))⟩, ⟨(3/5), (-(4/5))⟩] := by
  have sq0 : Real.sqrt 256 = 16 :=
    sqrt_eval 256 16 (by norm_num) (by norm_num)
  have sq1 : Real.sqrt 100 = 10 :=
    sqrt_eval 100 10 (by norm_num) (by norm_num)
  simp only [getAxes, triB, List.length_cons, List.length_nil]
  norm_num [List.range_succ, List.filterMap, List.getD, List.get?, sq0, sq1]

theorem getAxes_triAshift : getAxes triAshift = [⟨(-(3/5)), (4/5)⟩, ⟨0, (-1)⟩, ⟨(3/5), (4/5)⟩] := by
  have sq0 : Real.sqrt 100 = 10 :=
    sqrt_eval 100 10 (by norm_num) (by norm_num)
  have sq1 : Real.sqrt 256 = 16 :=
    sqrt_eval 256 16 (by norm_num) (by norm_num)
  simp only [getAxes, triAshift, List.length_cons, List.length_nil]
  norm_num [List.range_succ, List.filterMap, List.getD, List.get?, sq0, sq1]

theorem getAxes_dartM : getAxes dartM = [⟨(-(5/13)), (12/13)⟩, ⟨(4/5), (-(3/5))⟩, ⟨(4/5), (3/5)⟩, ⟨(-(5/13)), (-(12/13))⟩] := by
  have sq0 : Real.sqrt 169 = 13 :=
    sqrt_eval 169 13 (by norm_num) (by norm_num)
  have sq1 : Real.sqrt (625/16) = (25/4) :=
    sqrt_eval (625/16) (25/4) (by norm_num) (by norm_num)
  simp only [getAxes, dartM, List.length_cons, List.length_nil]
  norm_num [List.range_succ, List.filterMap, List.getD, List.get?, sq0, sq1]

theorem getAxes_rhC : getAxes rhC = [⟨(-(4/5)), (3/5)⟩, ⟨(4/5), (3/5)⟩, ⟨(4/5), (-(3/5))⟩, ⟨(-(4/5)), (-(3/5))⟩] := by
  have sq0 : Real.sqrt 25 = 5 :=
    sqrt_eval 25 5 (by norm_num) (by norm_num)
  simp only [getAxes, rhC, List.length_cons, List.length_nil]
  norm_num [List.range_succ, List.filterMap, List.getD, List.get?, sq0]

theorem getAxes_movC4 : getAxes movC4 = [⟨0, 1⟩, ⟨(-1), 0⟩, ⟨0, (-1)⟩, ⟨1, 0⟩] := by
  have sq0 : Real.sqrt (1/25) = (1/5) :=
    sqrt_eval (1/25) (1/5) (by norm_num) (by norm_num)
  simp only [getAxes, movC4, List.length_cons, List.length_nil]
  norm_num [List.range_succ, List.filterMap, List.getD, List.get?, sq0]

theorem getAxes_centC4 : getAxes centC4 = [⟨0, 1⟩, ⟨(-1), 0⟩, ⟨0, (-1)⟩, ⟨1, 0⟩] := by
  have sq0 : Real.sqrt 4 = 2 :=
    sqrt_eval 4 2 (by norm_num) (by norm_num)
  simp only [getAxes, centC4, List.length_cons, List.length_nil]
  norm_num [List.range_succ, List.filterMap, List.getD, List.get?, sq0]

theorem getAxes_rectC4 : getAxes rectC4 = [⟨0, 1⟩, ⟨(-1), 0⟩, ⟨0, (-1)⟩, ⟨1, 0⟩] := by
  have sq0 : Real.sqrt 4 = 2 :=
    sqrt_eval 4 2 (by norm_num) (by norm_num)
  simp only [getAxes, rectC4, List.length_cons, List.length_nil]
  norm_num [List.range_succ, List.filterMap, List.getD, List.get?, sq0]

theorem projPair0 : project sqA ⟨0, 1⟩ =
    ((((-(1/2)) : ℝ) : EReal), (((1/2) : ℝ) : EReal)) := by
  rw [show sqA = ⟨(-(1/2)), (-(1/2))⟩ :: [⟨(1/2), (-(1/2))⟩, ⟨(1/2), (1/2)⟩, ⟨(-(1/2)), (1/2)⟩] from rfl, project_cons]
  norm_num [projLo, projHi, dotp, List.foldl]
theorem projFst0 : (project sqA ⟨0, 1⟩).1 = (((-(1/2)) : ℝ) : EReal) := by
  rw [projPair0]
theorem projSnd0 : (project sqA ⟨0, 1⟩).2 = (((1/2) : ℝ) : EReal) := by
  rw [projPair0]

theorem projPair1 : project sqB ⟨0, 1⟩ =
    ((((-(1/2)) : ℝ) : EReal), (((1/2) : ℝ) : EReal)) := by
  rw [show sqB = ⟨0, (-(1/2))⟩ :: [⟨1, (-(1/2))⟩, ⟨1, (1/2)⟩, ⟨0, (1/2)⟩] from rfl, project_cons]
  norm_num [projLo, projHi, dotp, List.foldl]
theorem projFst1 : (project sqB ⟨0, 1⟩).1 = (((-(1/2)) : ℝ) : EReal) := by
  rw [projPair1]
theorem projSnd1 : (project sqB ⟨0, 1⟩).2 = (((1/2) : ℝ) : EReal) := by
  rw [projPair1]

theorem projPair2 : project sqA ⟨(-1), 0⟩ =
    ((((-(1/2)) : ℝ) : EReal), (((1/2) : ℝ) : EReal)) := by
  rw [show sqA = ⟨(-(1/2)), (-(1/2))⟩ :: [⟨(1/2), (-(1/2))⟩, ⟨(1/2), (1/2)⟩, ⟨(-(1/2)), (1/2)⟩] from rfl, project_cons]
  norm_num [projLo, projHi, dotp, List.foldl]
theorem projFst2 : (project sqA ⟨(-1), 0⟩).1 = (((-(1/2)) : ℝ) : EReal) := by
  rw [projPair2]
theorem projSnd2 : (project sqA ⟨(-1), 0⟩).2 = (((1/2) : ℝ) : EReal) := by
  rw [projPair2]

theorem projPair3 : project sqB ⟨(-1), 0⟩ =
    ((((-1) : ℝ) : EReal), ((0 : ℝ) : EReal)) := by
  rw [show sqB = ⟨0, (-(1/2))⟩ :: [⟨1, (-(1/2))⟩, ⟨1, (1/2)⟩, ⟨0, (1/2)⟩] from rfl, project_cons]
  norm_num [projLo, projHi, dotp, List.foldl]
theorem projFst3 : (project sqB ⟨(-1), 0⟩).1 = (((-1) : ℝ) : EReal) := by
  rw [projPair3]
theorem projSnd3 : (project sqB ⟨(-1), 0⟩).2 = ((0 : ℝ) : EReal) := by
  rw [projPair3]

theorem projPair4 : project sqA ⟨0, (-1)⟩ =
    ((((-(1/2)) : ℝ) : EReal), (((1/2) : ℝ) : EReal)) := by
  rw [show sqA = ⟨(-(1/2)), (-(1/2))⟩ :: [⟨(1/2), (-(1/2))⟩, ⟨(1/2), (1/2)⟩, ⟨(-(1/2)), (1/2)⟩] from rfl, project_cons]
  norm_num [projLo, projHi, dotp, List.foldl]
theorem projFst4 : (project sqA ⟨0, (-1)⟩).1 = (((-(1/2)) : ℝ) : EReal) := by
  rw [projPair4]
theorem projSnd4 : (project sqA ⟨0, (-1)⟩).2 = (((1/2) : ℝ) : EReal) := by
  rw [projPair4]

theorem projPair5 : project sqB ⟨0, (-1)⟩ =
    ((((-(1/2)) : ℝ) : EReal), (((1/2) : ℝ) : EReal)) := by
  rw [show sqB = ⟨0, (-(1/2))⟩ :: [⟨1, (-(1/2))⟩, ⟨1, (1/2)⟩, ⟨0, (1/2)⟩] from rfl, project_cons]
  norm_num [projLo, projHi, dotp, List.foldl]
theorem projFst5 : (project sqB ⟨0, (-1)⟩).1 = (((-(1/2)) : ℝ) : EReal) := by
  rw [projPair5]
theorem projSnd5 : (project sqB ⟨0, (-1)⟩).2 = (((1/2) : ℝ) : EReal) := by
  rw [projPair5]

theorem projPair6 : project sqA ⟨1, 0⟩ =
    ((((-(1/2)) : ℝ) : EReal), (((1/2) : ℝ) : EReal)) := by
  rw [show sqA = ⟨(-(1/2)), (-(1/2))⟩ :: [⟨(1/2), (-(1/2))⟩, ⟨(1/2), (1/2)⟩, ⟨(-(1/2)), (1/2)⟩] from rfl, project_cons]
  norm_num [projLo, projHi, dotp, List.foldl]
theorem projFst6 : (project sqA ⟨1, 0⟩).1 = (((-(1/2)) : ℝ) : EReal) := by
  rw [projPair6]
theorem projSnd6 : (project sqA ⟨1, 0⟩).2 = (((1/2) : ℝ) : EReal) := by
  rw [projPair6]

theorem projPair7 : project sqB ⟨1, 0⟩ =
    (((0 : ℝ) : EReal), ((1 : ℝ) : EReal)) := by
  rw [show sqB = ⟨0, (-(1/2))⟩ :: [⟨1, (-(1/2))⟩, ⟨1, (1/2)⟩, ⟨0, (1/2)⟩] from rfl, project_cons]
  norm_num [projLo, projHi, dotp, List.foldl]
theorem projFst7 : (project sqB ⟨1, 0⟩).1 = ((0 : ℝ) : EReal) := by
  rw [projPair7]
theorem projSnd7 : (project sqB ⟨1, 0⟩).2 = ((1 : ℝ) : EReal) := by
  rw [projPair7]

theorem satData_sqA_sqB : satData sqA sqB =
    some ((((1/2) : ℝ) : EReal), some ⟨(-1), 0⟩) := by
  rw [satData, getAxes_sqA, getAxes_sqB]
  simp only [List.cons_append, List.nil_append]
  have hng0 : ¬((project sqA ⟨0, 1⟩).2 ≤ (project sqB ⟨0, 1⟩).1 ∨
      (project sqB ⟨0, 1⟩).2 ≤ (project sqA ⟨0, 1⟩).1) := by
    rw [projSnd0, projFst1, projSnd1, projFst0]
    simp only [EReal.coe_le_coe_iff]
    norm_num
  have hov0 : overlapOn sqA sqB ⟨0, 1⟩ = ((1 : ℝ) : EReal) := by
    simp only [overlapOn]
    rw [projSnd0, projFst1, projSnd1, projFst0]
    simp only [← EReal.coe_sub, ereal_min_coe]
    exact congrArg Real.toEReal (by norm_num)
  rw [satLoop_cons_update _ _ _ _ _ _ _ hng0 hov0 (EReal.coe_lt_top _)]
  have hng1 : ¬((project sqA ⟨(-1), 0⟩).2 ≤ (project sqB ⟨(-1), 0⟩).1 ∨
      (project sqB ⟨(-1), 0⟩).2 ≤ (project sqA ⟨(-1), 0⟩).1) := by
    rw [projSnd2, projFst3, projSnd3, projFst2]
    simp only [EReal.coe_le_coe_iff]
    norm_num
  have hov1 : overlapOn sqA sqB ⟨(-1), 0⟩ = (((1/2) : ℝ) : EReal) := by
    simp only [overlapOn]
    rw [projSnd2, projFst3, projSnd3, projFst2]
    simp only [← EReal.coe_sub, ereal_min_coe]
    exact congrArg Real.toEReal (by norm_num)
  rw [satLoop_cons_update _ _ _ _ _ _ _ hng1 hov1 (EReal.coe_lt_coe_iff.mpr (by norm_num))]
  have hng2 : ¬((project sqA ⟨0, (-1)⟩).2 ≤ (project sqB ⟨0, (-1)⟩).1 ∨
      (project sqB ⟨0, (-1)⟩).2 ≤ (project sqA ⟨0, (-1)⟩).1) := by
    rw [projSnd4, projFst5, projSnd5, projFst4]
    simp only [EReal.coe_le_coe_iff]
    norm_num
  have hov2 : overlapOn sqA sqB ⟨0, (-1)⟩ = ((1 : ℝ) : EReal) := by
    simp only [overlapOn]
    rw [projSnd4, projFst5, projSnd5, projFst4]
    simp only [← EReal.coe_sub, ereal_min_coe]
    exact congrArg Real.toEReal (by norm_num)
  have hnl2 : ¬(((1 : ℝ) : EReal) < (((1/2) : ℝ) : EReal)) := by
    simp only [EReal.coe_lt_coe_iff]
    norm_num
  rw [satLoop_cons_keep _ _ _ _ _ _ _ hng2 hov2 hnl2]
  have hng3 : ¬((project sqA ⟨1, 0⟩).2 ≤ (project sqB ⟨1, 0⟩).1 ∨
      (project sqB ⟨1, 0⟩).2 ≤ (project sqA ⟨1, 0⟩).1) := by
    rw [projSnd6, projFst7, projSnd7, projFst6]
    simp only [EReal.coe_le_coe_iff]
    norm_num
  have hov3 : overlapOn sqA sqB ⟨1, 0⟩ = (((1/2) : ℝ) : EReal) := by
    simp only [overlapOn]
    rw [projSnd6, projFst7, projSnd7, projFst6]
    simp only [← EReal.coe_sub, ereal_min_coe]
    exact congrArg Real.toEReal (by norm_num)
  have hnl3 : ¬((((1/2) : ℝ) : EReal) < (((1/2) : ℝ) : EReal)) := by
    simp only [EReal.coe_lt_coe_iff]
    norm_num
  rw [satLoop_cons_keep _ _ _ _ _ _ _ hng3 hov3 hnl3]
  have hng4 : ¬((project sqA ⟨0, 1⟩).2 ≤ (project sqB ⟨0, 1⟩).1 ∨
      (project sqB ⟨0, 1⟩).2 ≤ (project sqA ⟨0, 1⟩).1) := by
    rw [projSnd0, projFst1, projSnd1, projFst0]
    simp only [EReal.coe_le_coe_iff]
    norm_num
  have hov4 : overlapOn sqA sqB ⟨0, 1⟩ = ((1 : ℝ) : EReal) := by
    simp only [overlapOn]
    rw [projSnd0, projFst1, projSnd1, projFst0]
    simp only [← EReal.coe_sub, ereal_min_coe]
    exact congrArg Real.toEReal (by norm_num)
  have hnl4 : ¬(((1 : ℝ) : EReal) < (((1/2) : ℝ) : EReal)) := by
    simp only [EReal.coe_lt_coe_iff]
    norm_num
  rw [satLoop_cons_keep _ _ _ _ _ _ _ hng4 hov4 hnl4]
  have hng5 : ¬((project sqA ⟨(-1), 0⟩).2 ≤ (project sqB ⟨(-1), 0⟩).1 ∨
      (project sqB ⟨(-1), 0⟩).2 ≤ (project sqA ⟨(-1), 0⟩).1) := by
    rw [projSnd2, projFst3, projSnd3, projFst2]
    simp only [EReal.coe_le_coe_iff]
    norm_num
  have hov5 : overlapOn sqA sqB ⟨(-1), 0⟩ = (((1/2) : ℝ) : EReal) := by
    simp only [overlapOn]
    rw [projSnd2, projFst3, projSnd3, projFst2]
    simp only [← EReal.coe_sub, ereal_min_coe]
    exact congrArg Real.toEReal (by norm_num)
  have hnl5 : ¬((((1/2) : ℝ) : EReal) < (((1/2) : ℝ) : EReal)) := by
    simp only [EReal.coe_lt_coe_iff]
    norm_num
  rw [satLoop_cons_keep _ _ _ _ _ _ _ hng5 hov5 hnl5]
  have hng6 : ¬((project sqA ⟨0, (-1)⟩).2 ≤ (project sqB ⟨0, (-1)⟩).1 ∨
      (project sqB ⟨0, (-1)⟩).2 ≤ (project sqA ⟨0, (-1)⟩).1) := by
    rw [projSnd4, projFst5, projSnd5, projFst4]
    simp only [EReal.coe_le_coe_iff]
    norm_num
  have hov6 : overlapOn sqA sqB ⟨0, (-1)⟩ = ((1 : ℝ) : EReal) := by
    simp only [overlapOn]
    rw [projSnd4, projFst5, projSnd5, projFst4]
    simp only [← EReal.coe_sub, ereal_min_coe]
    exact congrArg Real.toEReal (by norm_num)
  have hnl6 : ¬(((1 : ℝ) : EReal) < (((1/2) : ℝ) : EReal)) := by
    simp only [EReal.coe_lt_coe_iff]
    norm_num
  rw [satLoop_cons_keep _ _ _ _ _ _ _ hng6 hov6 hnl6]
  have hng7 : ¬((project sqA ⟨1, 0⟩).2 ≤ (project sqB ⟨1, 0⟩).1 ∨
      (project sqB ⟨1, 0⟩).2 ≤ (project sqA ⟨1, 0⟩).1) := by
    rw [projSnd6, projFst7, projSnd7, projFst6]
    simp only [EReal.coe_le_coe_iff]
    norm_num
  have hov7 : overlapOn sqA sqB ⟨1, 0⟩ = (((1/2) : ℝ) : EReal) := by
    simp only [overlapOn]
    rw [projSnd6, projFst7, projSnd7, projFst6]
    simp only [← EReal.coe_sub, ereal_min_coe]
    exact congrArg Real.toEReal (by norm_num)
  have hnl7 : ¬((((1/2) : ℝ) : EReal) < (((1/2) : ℝ) : EReal)) := by
    simp only [EReal.coe_lt_coe_iff]
    norm_num
  rw [satLoop_cons_keep _ _ _ _ _ _ _ hng7 hov7 hnl7]
  rw [satLoop_nil]

theorem satOverlap_sqA_sqB : satOverlap sqA sqB = some ⟨(-(1/2)), 0⟩ := by
  simp only [satOverlap, satData_sqA_sqB]
  norm_num [polygonCentroid, sqA, sqB, EReal.toReal_coe, Pt.mk.injEq]

theorem projPair8 : project sqFar ⟨0, 1⟩ =
    ((((-(1/2)) : ℝ) : EReal), (((1/2) : ℝ) : EReal)) := by
  rw [show sqFar = ⟨(5/2), (-(1/2))⟩ :: [⟨(7/2), (-(1/2))⟩, ⟨(7/2), (1/2)⟩, ⟨(5/2), (1/2)⟩] from rfl, project_cons]
  norm_num [projLo, projHi, dotp, List.foldl]
theorem projFst8 : (project sqFar ⟨0, 1⟩).1 = (((-(1/2)) : ℝ) : EReal) := by
  rw [projPair8]
theorem projSnd8 : (project sqFar ⟨0, 1⟩).2 = (((1/2) : ℝ) : EReal) := by
  rw [projPair8]

theorem projPair9 : project sqFar ⟨(-1), 0⟩ =
    ((((-(7/2)) : ℝ) : EReal), (((-(5/2)) : ℝ) : EReal)) := by
  rw [show sqFar = ⟨(5/2), (-(1/2))⟩ :: [⟨(7/2), (-(1/2))⟩, ⟨(7/2), (1/2)⟩, ⟨(5/2), (1/2)⟩] from rfl, project_cons]
  norm_num [projLo, projHi, dotp, List.foldl]
theorem projFst9 : (project sqFar ⟨(-1), 0⟩).1 = (((-(7/2)) : ℝ) : EReal) := by
  rw [projPair9]
theorem projSnd9 : (project sqFar ⟨(-1), 0⟩).2 = (((-(5/2)) : ℝ) : EReal) := by
  rw [projPair9]

theorem satData_sqA_sqFar : satData sqA sqFar = none := by
  rw [satData, getAxes_sqA, getAxes_sqFar]
  simp only [List.cons_append, List.nil_append]
  have hng0 : ¬((project sqA ⟨0, 1⟩).2 ≤ (project sqFar ⟨0, 1⟩).1 ∨
      (project sqFar ⟨0, 1⟩).2 ≤ (project sqA ⟨0, 1⟩).1) := by
    rw [projSnd0, projFst8, projSnd8, projFst0]
    simp only [EReal.coe_le_coe_iff]
    norm_num
  have hov0 : overlapOn sqA sqFar ⟨0, 1⟩ = ((1 : ℝ) : EReal) := by
    simp only [overlapOn]
    rw [projSnd0, projFst8, projSnd8, projFst0]
    simp only [← EReal.coe_sub, ereal_min_coe]
    exact congrArg Real.toEReal (by norm_num)
  rw [satLoop_cons_update _ _ _ _ _ _ _ hng0 hov0 (EReal.coe_lt_top _)]
  have hgp1 : (project sqA ⟨(-1), 0⟩).2 ≤ (project sqFar ⟨(-1), 0⟩).1 ∨
      (project sqFar ⟨(-1), 0⟩).2 ≤ (project sqA ⟨(-1), 0⟩).1 := by
    rw [projSnd2, projFst9, projSnd9, projFst2]
    simp only [EReal.coe_le_coe_iff]
    norm_num
  rw [satLoop_cons_gap _ _ _ _ _ _ hgp1]

theorem satOverlap_sqA_sqFar : satOverlap sqA sqFar = none := by
  simp only [satOverlap, satData_sqA_sqFar]

theorem projPair10 : project sqTouch ⟨0, 1⟩ =
    ((((-(1/2)) : ℝ) : EReal), (((1/2) : ℝ) : EReal)) := by
  rw [show sqTouch = ⟨(1/2), (-(1/2))⟩ :: [⟨(3/2), (-(1/2))⟩, ⟨(3/2), (1/2)⟩, ⟨(1/2), (1/2)⟩] from rfl, project_cons]
  norm_num [projLo, projHi, dotp, List.foldl]
theorem projFst10 : (project sqTouch ⟨0, 1⟩).1 = (((-(1/2)) : ℝ) : EReal) := by
  rw [projPair10]
theorem projSnd10 : (project sqTouch ⟨0, 1⟩).2 = (((1/2) : ℝ) : EReal) := by
  rw [projPair10]

theorem projPair11 : project sqTouch ⟨(-1), 0⟩ =
    ((((-(3/2)) : ℝ) : EReal), (((-(1/2)) : ℝ) : EReal)) := by
  rw [show sqTouch = ⟨(1/2), (-(1/2))⟩ :: [⟨(3/2), (-(1/2))⟩, ⟨(3/2), (1/2)⟩, ⟨(1/2), (1/2)⟩] from rfl, project_cons]
  norm_num [projLo, projHi, dotp, List.foldl]
theorem projFst11 : (project sqTouch ⟨(-1), 0⟩).1 = (((-(3/2)) : ℝ) : EReal) := by
  rw [projPair11]
theorem projSnd11 : (project sqTouch ⟨(-1), 0⟩).2 = (((-(1/2)) : ℝ) : EReal) := by
  rw [projPair11]

theorem satData_sqA_sqTouch : satData sqA sqTouch = none := by
  rw [satData, getAxes_sqA, getAxes_sqTouch]
  simp only [List.cons_append, List.nil_append]
  have hng0 : ¬((project sqA ⟨0, 1⟩).2 ≤ (project sqTouch ⟨0, 1⟩).1 ∨
      (project sqTouch ⟨0, 1⟩).2 ≤ (project sqA ⟨0, 1⟩).1) := by
    rw [projSnd0, projFst10, projSnd10, projFst0]
    simp only [EReal.coe_le_coe_iff]
    norm_num
  have hov0 : overlapOn sqA sqTouch ⟨0, 1⟩ = ((1 : ℝ) : EReal) := by
    simp only [overlapOn]
    rw [projSnd0, projFst10, projSnd10, projFst0]
    simp only [← EReal.coe_sub, ereal_min_coe]
    exact congrArg Real.toEReal (by norm_num)
  rw [satLoop_cons_update _ _ _ _ _ _ _ hng0 hov0 (EReal.coe_lt_top _)]
  have hgp1 : (project sqA ⟨(-1), 0⟩).2 ≤ (project sqTouch ⟨(-1), 0⟩).1 ∨
      (project sqTouch ⟨(-1), 0⟩).2 ≤ (project sqA ⟨(-1), 0⟩).1 := by
    rw [projSnd2, projFst11, projSnd11, projFst2]
    simp only [EReal.coe_le_coe_iff]
    norm_num
  rw [satLoop_cons_gap _ _ _ _ _ _ hgp1]

theorem satOverlap_sqA_sqTouch : satOverlap sqA sqTouch = none := by
  simp only [satOverlap, satData_sqA_sqTouch]

theorem projPair12 : project triA ⟨(-(3/5)), (4/5)⟩ =
    ((((-(12/5)) : ℝ) : EReal), (((36/5) : ℝ) : EReal)) := by
  rw [show triA = ⟨0, (-3)⟩ :: [⟨8, 3⟩, ⟨(-8), 3⟩] from rfl, project_cons]
  norm_num [projLo, projHi, dotp, List.foldl]
theorem projFst12 : (project triA ⟨(-(3/5)), (4/5)⟩).1 = (((-(12/5)) : ℝ) : EReal) := by
  rw [projPair12]
theorem projSnd12 : (project triA ⟨(-(3/5)), (4/5)⟩).2 = (((36/5) : ℝ) : EReal) := by
  rw [projPair12]

theorem projPair13 : project triB ⟨(-(3/5)), (4/5)⟩ =
    ((((-(32/5)) : ℝ) : EReal), (((16/5) : ℝ) : EReal)) := by
  rw [show triB = ⟨(-8), (-2)⟩ :: [⟨8, (-2)⟩, ⟨0, 4⟩] from rfl, project_cons]
  norm_num [projLo, projHi, dotp, List.foldl]
theorem projFst13 : (project triB ⟨(-(3/5)), (4/5)⟩).1 = (((-(32/5)) : ℝ) : EReal) := by
  rw [projPair13]
theorem projSnd13 : (project triB ⟨(-(3/5)), (4/5)⟩).2 = (((16/5) : ℝ) : EReal) := by
  rw [projPair13]

theorem projPair14 : project triA ⟨0, (-1)⟩ =
    ((((-3) : ℝ) : EReal), ((3 : ℝ) : EReal)) := by
  rw [show triA = ⟨0, (-3)⟩ :: [⟨8, 3⟩, ⟨(-8), 3⟩] from rfl, project_cons]
  norm_num [projLo, projHi, dotp, List.foldl]
theorem projFst14 : (project triA ⟨0, (-1)⟩).1 = (((-3) : ℝ) : EReal) := by
  rw [projPair14]
theorem projSnd14 : (project triA ⟨0, (-1)⟩).2 = ((3 : ℝ) : EReal) := by
  rw [projPair14]

theorem projPair15 : project triB ⟨0, (-1)⟩ =
    ((((-4) : ℝ) : EReal), ((2 : ℝ) : EReal)) := by
  rw [show triB = ⟨(-8), (-2)⟩ :: [⟨8, (-2)⟩, ⟨0, 4⟩] from rfl, project_cons]
  norm_num [projLo, projHi, dotp, List.foldl]
theorem projFst15 : (project triB ⟨0, (-1)⟩).1 = (((-4) : ℝ) : EReal) := by
  rw [projPair15]
theorem projSnd15 : (project triB ⟨0, (-1)⟩).2 = ((2 : ℝ) : EReal) := by
  rw [projPair15]

theorem projPair16 : project triA ⟨(3/5), (4/5)⟩ =
    ((((-(12/5)) : ℝ) : EReal), (((36/5) : ℝ) : EReal)) := by
  rw [show triA = ⟨0, (-3)⟩ :: [⟨8, 3⟩, ⟨(-8), 3⟩] from rfl, project_cons]
  norm_num [projLo, projHi, dotp, List.foldl]
theorem projFst16 : (project triA ⟨(3/5), (4/5)⟩).1 = (((-(12/5)) : ℝ) : EReal) := by
  rw [projPair16]
theorem projSnd16 : (project triA ⟨(3/5), (4/5)⟩).2 = (((36/5) : ℝ) : EReal) := by
  rw [projPair16]

theorem projPair17 : project triB ⟨(3/5), (4/5)⟩ =
    ((((-(32/5)) : ℝ) : EReal), (((16/5) : ℝ) : EReal)) := by
  rw [show triB = ⟨(-8), (-2)⟩ :: [⟨8, (-2)⟩, ⟨0, 4⟩] from rfl, project_cons]
  norm_num [projLo, projHi, dotp, List.foldl]
theorem projFst17 : (project triB ⟨(3/5), (4/5)⟩).1 = (((-(32/5)) : ℝ) : EReal) := by
  rw [projPair17]
theorem projSnd17 : (project triB ⟨(3/5), (4/5)⟩).2 = (((16/5) : ℝ) : EReal) := by
  rw [projPair17]

theorem projPair18 : project triA ⟨0, 1⟩ =
    ((((-3) : ℝ) : EReal), ((3 : ℝ) : EReal)) := by
  rw [show triA = ⟨0, (-3)⟩ :: [⟨8, 3⟩, ⟨(-8), 3⟩] from rfl, project_cons]
  norm_num [projLo, projHi, dotp, List.foldl]
theorem projFst18 : (project triA ⟨0, 1⟩).1 = (((-3) : ℝ) : EReal) := by
  rw [projPair18]
theorem projSnd18 : (project triA ⟨0, 1⟩).2 = ((3 : ℝ) : EReal) := by
  rw [projPair18]

theorem projPair19 : project triB ⟨0, 1⟩ =
    ((((-2) : ℝ) : EReal), ((4 : ℝ) : EReal)) := by
  rw [show triB = ⟨(-8), (-2)⟩ :: [⟨8, (-2)⟩, ⟨0, 4⟩] from rfl, project_cons]
  norm_num [projLo, projHi, dotp, List.foldl]
theorem projFst19 : (project triB ⟨0, 1⟩).1 = (((-2) : ℝ) : EReal) := by
  rw [projPair19]
theorem projSnd19 : (project triB ⟨0, 1⟩).2 = ((4 : ℝ) : EReal) := by
  rw [projPair19]

theorem projPair20 : project triA ⟨(-(3/5)), (-(4/5))⟩ =
    ((((-(36/5)) : ℝ) : EReal), (((12/5) : ℝ) : EReal)) := by
  rw [show triA = ⟨0, (-3)⟩ :: [⟨8, 3⟩, ⟨(-8), 3⟩] from rfl, project_cons]
  norm_num [projLo, projHi, dotp, List.foldl]
theorem projFst20 : (project triA ⟨(-(3/5)), (-(4/5))⟩).1 = (((-(36/5)) : ℝ) : EReal) := by
  rw [projPair20]
theorem projSnd20 : (project triA ⟨(-(3/5)), (-(4/5))⟩).2 = (((12/5) : ℝ) : EReal) := by
  rw [projPair20]

theorem projPair21 : project triB ⟨(-(3/5)), (-(4/5))⟩ =
    ((((-(16/5)) : ℝ) : EReal), (((32/5) : ℝ) : EReal)) := by
  rw [show triB = ⟨(-8), (-2)⟩ :: [⟨8, (-2)⟩, ⟨0, 4⟩] from rfl, project_cons]
  norm_num [projLo, projHi, dotp, List.foldl]
theorem projFst21 : (project triB ⟨(-(3/5)), (-(4/5))⟩).1 = (((-(16/5)) : ℝ) : EReal) := by
  rw [projPair21]
theorem projSnd21 : (project triB ⟨(-(3/5)), (-(4/5))⟩).2 = (((32/5) : ℝ) : EReal) := by
  rw [projPair21]

theorem projPair22 : project triA ⟨(3/5), (-(4/5))⟩ =
    ((((-(36/5)) : ℝ) : EReal), (((12/5) : ℝ) : EReal)) := by
  rw [show triA = ⟨0, (-3)⟩ :: [⟨8, 3⟩, ⟨(-8), 3⟩] from rfl, project_cons]
  norm_num [projLo, projHi, dotp, List.foldl]
theorem projFst22 : (project triA ⟨(3/5), (-(4/5))⟩).1 = (((-(36/5)) : ℝ) : EReal) := by
  rw [projPair22]
theorem projSnd22 : (project triA ⟨(3/5), (-(4/5))⟩).2 = (((12/5) : ℝ) : EReal) := by
  rw [projPair22]

theorem projPair23 : project triB ⟨(3/5), (-(4/5))⟩ =
    ((((-(16/5)) : ℝ) : EReal), (((32/5) : ℝ) : EReal)) := by
  rw [show triB = ⟨(-8), (-2)⟩ :: [⟨8, (-2)⟩, ⟨0, 4⟩] from rfl, project_cons]
  norm_num [projLo, projHi, dotp, List.foldl]
theorem projFst23 : (project triB ⟨(3/5), (-(4/5))⟩).1 = (((-(16/5)) : ℝ) : EReal) := by
  rw [projPair23]
theorem projSnd23 : (project triB ⟨(3/5), (-(4/5))⟩).2 = (((32/5) : ℝ) : EReal) := by
  rw [projPair23]

theorem satData_triA_triB : satData triA triB =
    some (((5 : ℝ) : EReal), some ⟨0, (-1)⟩) := by
  rw [satData, getAxes_triA, getAxes_triB]
  simp only [List.cons_append, List.nil_append]
  have hng0 : ¬((project triA ⟨(-(3/5)), (4/5)⟩).2 ≤ (project triB ⟨(-(3/5)), (4/5)⟩).1 ∨
      (project triB ⟨(-(3/5)), (4/5)⟩).2 ≤ (project triA ⟨(-(3/5)), (4/5)⟩).1) := by
    rw [projSnd12, projFst13, projSnd13, projFst12]
    simp only [EReal.coe_le_coe_iff]
    norm_num
  have hov0 : overlapOn triA triB ⟨(-(3/5)), (4/5)⟩ = (((28/5) : ℝ) : EReal) := by
    simp only [overlapOn]
    rw [projSnd12, projFst13, projSnd13, projFst12]
    simp only [← EReal.coe_sub, ereal_min_coe]
    exact congrArg Real.toEReal (by norm_num)
  rw [satLoop_cons_update _ _ _ _ _ _ _ hng0 hov0 (EReal.coe_lt_top _)]
  have hng1 : ¬((project triA ⟨0, (-1)⟩).2 ≤ (project triB ⟨0, (-1)⟩).1 ∨
      (project triB ⟨0, (-1)⟩).2 ≤ (project triA ⟨0, (-1)⟩).1) := by
    rw [projSnd14, projFst15, projSnd15, projFst14]
    simp only [EReal.coe_le_coe_iff]
    norm_num
  have hov1 : overlapOn triA triB ⟨0, (-1)⟩ = ((5 : ℝ) : EReal) := by
    simp only [overlapOn]
    rw [projSnd14, projFst15, projSnd15, projFst14]
    simp only [← EReal.coe_sub, ereal_min_coe]
    exact congrArg Real.toEReal (by norm_num)
  rw [satLoop_cons_update _ _ _ _ _ _ _ hng1 hov1 (EReal.coe_lt_coe_iff.mpr (by norm_num))]
  have hng2 : ¬((project triA ⟨(3/5), (4/5)⟩).2 ≤ (project triB ⟨(3/5), (4/5)⟩).1 ∨
      (project triB ⟨(3/5), (4/5)⟩).2 ≤ (project triA ⟨(3/5), (4/5)⟩).1) := by
    rw [projSnd16, projFst17, projSnd17, projFst16]
    simp only [EReal.coe_le_coe_iff]
    norm_num
  have hov2 : overlapOn triA triB ⟨(3/5), (4/5)⟩ = (((28/5) : ℝ) : EReal) := by
    simp only [overlapOn]
    rw [projSnd16, projFst17, projSnd17, projFst16]
    simp only [← EReal.coe_sub, ereal_min_coe]
    exact congrArg Real.toEReal (by norm_num)
  have hnl2 : ¬((((28/5) : ℝ) : EReal) < ((5 : ℝ) : EReal)) := by
    simp only [EReal.coe_lt_coe_iff]
    norm_num
  rw [satLoop_cons_keep _ _ _ _ _ _ _ hng2 hov2 hnl2]
  have hng3 : ¬((project triA ⟨0, 1⟩).2 ≤ (project triB ⟨0, 1⟩).1 ∨
      (project triB ⟨0, 1⟩).2 ≤ (project triA ⟨0, 1⟩).1) := by
    rw [projSnd18, projFst19, projSnd19, projFst18]
    simp only [EReal.coe_le_coe_iff]
    norm_num
  have hov3 : overlapOn triA triB ⟨0, 1⟩ = ((5 : ℝ) : EReal) := by
    simp only [overlapOn]
    rw [projSnd18, projFst19, projSnd19, projFst18]
    simp only [← EReal.coe_sub, ereal_min_coe]
    exact congrArg Real.toEReal (by norm_num)
  have hnl3 : ¬(((5 : ℝ) : EReal) < ((5 : ℝ) : EReal)) := by
    simp only [EReal.coe_lt_coe_iff]
    norm_num
  rw [satLoop_cons_keep _ _ _ _ _ _ _ hng3 hov3 hnl3]
  have hng4 : ¬((project triA ⟨(-(3/5)), (-(4/5))⟩).2 ≤ (project triB ⟨(-(3/5)), (-(4/5))⟩).1 ∨
      (project triB ⟨(-(3/5)), (-(4/5))⟩).2 ≤ (project triA ⟨(-(3/5)), (-(4/5))⟩).1) := by
    rw [projSnd20, projFst21, projSnd21, projFst20]
    simp only [EReal.coe_le_coe_iff]
    norm_num
  have hov4 : overlapOn triA triB ⟨(-(3/5)), (-(4/5))⟩ = (((28/5) : ℝ) : EReal) := by
    simp only [overlapOn]
    rw [projSnd20, projFst21, projSnd21, projFst20]
    simp only [← EReal.coe_sub, ereal_min_coe]
    exact congrArg Real.toEReal (by norm_num)
  have hnl4 : ¬((((28/5) : ℝ) : EReal) < ((5 : ℝ) : EReal)) := by
    simp only [EReal.coe_lt_coe_iff]
    norm_num
  rw [satLoop_cons_keep _ _ _ _ _ _ _ hng4 hov4 hnl4]
  have hng5 : ¬((project triA ⟨(3/5), (-(4/5))⟩).2 ≤ (project triB ⟨(3/5), (-(4/5))⟩).1 ∨
      (project triB ⟨(3/5), (-(4/5))⟩).2 ≤ (project triA ⟨(3/5), (-(4/5))⟩).1) := by
    rw [projSnd22, projFst23, projSnd23, projFst22]
    simp only [EReal.coe_le_coe_iff]
    norm_num
  have hov5 : overlapOn triA triB ⟨(3/5), (-(4/5))⟩ = (((28/5) : ℝ) : EReal) := by
    simp only [overlapOn]
    rw [projSnd22, projFst23, projSnd23, projFst22]
    simp only [← EReal.coe_sub, ereal_min_coe]
    exact congrArg Real.toEReal (by norm_num)
  have hnl5 : ¬((((28/5) : ℝ) : EReal) < ((5 : ℝ) : EReal)) := by
    simp only [EReal.coe_lt_coe_iff]
    norm_num
  rw [satLoop_cons_keep _ _ _ _ _ _ _ hng5 hov5 hnl5]
  rw [satLoop_nil]

theorem satOverlap_triA_triB : satOverlap triA triB = some ⟨0, 5⟩ := by
  simp only [satOverlap, satData_triA_triB]
  norm_num [polygonCentroid, triA, triB, EReal.toReal_coe, Pt.mk.injEq]

theorem projPair24 : project dartM ⟨(-(5/13)), (12/13)⟩ =
    ((((-(110/13)) : ℝ) : EReal), (((10/13) : ℝ) : EReal)) := by
  rw [show dartM = ⟨(-2), 0⟩ :: [⟨10, 5⟩, ⟨(25/4), 0⟩, ⟨10, (-5)⟩] from rfl, project_cons]
  norm_num [projLo, projHi, dotp, List.foldl]
theorem projFst24 : (project dartM ⟨(-(5/13)), (12/13)⟩).1 = (((-(110/13)) : ℝ) : EReal) := by
  rw [projPair24]
theorem projSnd24 : (project dartM ⟨(-(5/13)), (12/13)⟩).2 = (((10/13) : ℝ) : EReal) := by
  rw [projPair24]

theorem projPair25 : project rhC ⟨(-(5/13)), (12/13)⟩ =
    ((((-(113/13)) : ℝ) : EReal), (((-(17/13)) : ℝ) : EReal)) := by
  rw [show rhC = ⟨10, 0⟩ :: [⟨13, 4⟩, ⟨16, 0⟩, ⟨13, (-4)⟩] from rfl, project_cons]
  norm_num [projLo, projHi, dotp, List.foldl]
theorem projFst25 : (project rhC ⟨(-(5/13)), (12/13)⟩).1 = (((-(113/13)) : ℝ) : EReal) := by
  rw [projPair25]
theorem projSnd25 : (project rhC ⟨(-(5/13)), (12/13)⟩).2 = (((-(17/13)) : ℝ) : EReal) := by
  rw [projPair25]

theorem projPair26 : project dartM ⟨(4/5), (-(3/5))⟩ =
    ((((-(8/5)) : ℝ) : EReal), ((11 : ℝ) : EReal)) := by
  rw [show dartM = ⟨(-2), 0⟩ :: [⟨10, 5⟩, ⟨(25/4), 0⟩, ⟨10, (-5)⟩] from rfl, project_cons]
  norm_num [projLo, projHi, dotp, List.foldl]
theorem projFst26 : (project dartM ⟨(4/5), (-(3/5))⟩).1 = (((-(8/5)) : ℝ) : EReal) := by
  rw [projPair26]
theorem projSnd26 : (project dartM ⟨(4/5), (-(3/5))⟩).2 = ((11 : ℝ) : EReal) := by
  rw [projPair26]

theorem projPair27 : project rhC ⟨(4/5), (-(3/5))⟩ =
    (((8 : ℝ) : EReal), (((64/5) : ℝ) : EReal)) := by
  rw [show rhC = ⟨10, 0⟩ :: [⟨13, 4⟩, ⟨16, 0⟩, ⟨13, (-4)⟩] from rfl, project_cons]
  norm_num [projLo, projHi, dotp, List.foldl]
theorem projFst27 : (project rhC ⟨(4/5), (-(3/5))⟩).1 = ((8 : ℝ) : EReal) := by
  rw [projPair27]
theorem projSnd27 : (project rhC ⟨(4/5), (-(3/5))⟩).2 = (((64/5) : ℝ) : EReal) := by
  rw [projPair27]

theorem projPair28 : project dartM ⟨(4/5), (3/5)⟩ =
    ((((-(8/5)) : ℝ) : EReal), ((11 : ℝ) : EReal)) := by
  rw [show dartM = ⟨(-2), 0⟩ :: [⟨10, 5⟩, ⟨(25/4), 0⟩, ⟨10, (-5)⟩] from rfl, project_cons]
  norm_num [projLo, projHi, dotp, List.foldl]
theorem projFst28 : (project dartM ⟨(4/5), (3/5)⟩).1 = (((-(8/5)) : ℝ) : EReal) := by
  rw [projPair28]
theorem projSnd28 : (project dartM ⟨(4/5), (3/5)⟩).2 = ((11 : ℝ) : EReal) := by
  rw [projPair28]

theorem projPair29 : project rhC ⟨(4/5), (3/5)⟩ =
    (((8 : ℝ) : EReal), (((64/5) : ℝ) : EReal)) := by
  rw [show rhC = ⟨10, 0⟩ :: [⟨13, 4⟩, ⟨16, 0⟩, ⟨13, (-4)⟩] from rfl, project_cons]
  norm_num [projLo, projHi, dotp, List.foldl]
theorem projFst29 : (project rhC ⟨(4/5), (3/5)⟩).1 = ((8 : ℝ) : EReal) := by
  rw [projPair29]
theorem projSnd29 : (project rhC ⟨(4/5), (3/5)⟩).2 = (((64/5) : ℝ) : EReal) := by
  rw [projPair29]

theorem projPair30 : project dartM ⟨(-(5/13)), (-(12/13))⟩ =
    ((((-(110/13)) : ℝ) : EReal), (((10/13) : ℝ) : EReal)) := by
  rw [show dartM = ⟨(-2), 0⟩ :: [⟨10, 5⟩, ⟨(25/4), 0⟩, ⟨10, (-5)⟩] from rfl, project_cons]
  norm_num [projLo, projHi, dotp, List.foldl]
theorem projFst30 : (project dartM ⟨(-(5/13)), (-(12/13))⟩).1 = (((-(110/13)) : ℝ) : EReal) := by
  rw [projPair30]
theorem projSnd30 : (project dartM ⟨(-(5/13)), (-(12/13))⟩).2 = (((10/13) : ℝ) : EReal) := by
  rw [projPair30]

theorem projPair31 : project rhC ⟨(-(5/13)), (-(12/13))⟩ =
    ((((-(113/13)) : ℝ) : EReal), (((-(17/13)) : ℝ) : EReal)) := by
  rw [show rhC = ⟨10, 0⟩ :: [⟨13, 4⟩, ⟨16, 0⟩, ⟨13, (-4)⟩] from rfl, project_cons]
  norm_num [projLo, projHi, dotp, List.foldl]
theorem projFst31 : (project rhC ⟨(-(5/13)), (-(12/13))⟩).1 = (((-(113/13)) : ℝ) : EReal) := by
  rw [projPair31]
theorem projSnd31 : (project rhC ⟨(-(5/13)), (-(12/13))⟩).2 = (((-(17/13)) : ℝ) : EReal) := by
  rw [projPair31]

theorem projPair32 : project dartM ⟨(-(4/5)), (3/5)⟩ =
    ((((-11) : ℝ) : EReal), (((8/5) : ℝ) : EReal)) := by
  rw [show dartM = ⟨(-2), 0⟩ :: [⟨10, 5⟩, ⟨(25/4), 0⟩, ⟨10, (-5)⟩] from rfl, project_cons]
  norm_num [projLo, projHi, dotp, List.foldl]
theorem projFst32 : (project dartM ⟨(-(4/5)), (3/5)⟩).1 = (((-11) : ℝ) : EReal) := by
  rw [projPair32]
theorem projSnd32 : (project dartM ⟨(-(4/5)), (3/5)⟩).2 = (((8/5) : ℝ) : EReal) := by
  rw [projPair32]

theorem projPair33 : project rhC ⟨(-(4/5)), (3/5)⟩ =
    ((((-(64/5)) : ℝ) : EReal), (((-8) : ℝ) : EReal)) := by
  rw [show rhC = ⟨10, 0⟩ :: [⟨13, 4⟩, ⟨16, 0⟩, ⟨13, (-4)⟩] from rfl, project_cons]
  norm_num [projLo, projHi, dotp, List.foldl]
theorem projFst33 : (project rhC ⟨(-(4/5)), (3/5)⟩).1 = (((-(64/5)) : ℝ) : EReal) := by
  rw [projPair33]
theorem projSnd33 : (project rhC ⟨(-(4/5)), (3/5)⟩).2 = (((-8) : ℝ) : EReal) := by
  rw [projPair33]

theorem projPair34 : project dartM ⟨(-(4/5)), (-(3/5))⟩ =
    ((((-11) : ℝ) : EReal), (((8/5) : ℝ) : EReal)) := by
  rw [show dartM = ⟨(-2), 0⟩ :: [⟨10, 5⟩, ⟨(25/4), 0⟩, ⟨10, (-5)⟩] from rfl, project_cons]
  norm_num [projLo, projHi, dotp, List.foldl]
theorem projFst34 : (project dartM ⟨(-(4/5)), (-(3/5))⟩).1 = (((-11) : ℝ) : EReal) := by
  rw [projPair34]
theorem projSnd34 : (project dartM ⟨(-(4/5)), (-(3/5))⟩).2 = (((8/5) : ℝ) : EReal) := by
  rw [projPair34]

theorem projPair35 : project rhC ⟨(-(4/5)), (-(3/5))⟩ =
    ((((-(64/5)) : ℝ) : EReal), (((-8) : ℝ) : EReal)) := by
  rw [show rhC = ⟨10, 0⟩ :: [⟨13, 4⟩, ⟨16, 0⟩, ⟨13, (-4)⟩] from rfl, project_cons]
  norm_num [projLo, projHi, dotp, List.foldl]
theorem projFst35 : (project rhC ⟨(-(4/5)), (-(3/5))⟩).1 = (((-(64/5)) : ℝ) : EReal) := by
  rw [projPair35]
theorem projSnd35 : (project rhC ⟨(-(4/5)), (-(3/5))⟩).2 = (((-8) : ℝ) : EReal) := by
  rw [projPair35]

theorem satData_dartM_rhC : satData dartM rhC =
    some (((3 : ℝ) : EReal), some ⟨(4/5), (-(3/5))⟩) := by
  rw [satData, getAxes_dartM, getAxes_rhC]
  simp only [List.cons_append, List.nil_append]
  have hng0 : ¬((project dartM ⟨(-(5/13)), (12/13)⟩).2 ≤ (project rhC ⟨(-(5/13)), (12/13)⟩).1 ∨
      (project rhC ⟨(-(5/13)), (12/13)⟩).2 ≤ (project dartM ⟨(-(5/13)), (12/13)⟩).1) := by
    rw [projSnd24, projFst25, projSnd25, projFst24]
    simp only [EReal.coe_le_coe_iff]
    norm_num
  have hov0 : overlapOn dartM rhC ⟨(-(5/13)), (12/13)⟩ = (((93/13) : ℝ) : EReal) := by
    simp only [overlapOn]
    rw [projSnd24, projFst25, projSnd25, projFst24]
    simp only [← EReal.coe_sub, ereal_min_coe]
    exact congrArg Real.toEReal (by norm_num)
  rw [satLoop_cons_update _ _ _ _ _ _ _ hng0 hov0 (EReal.coe_lt_top _)]
  have hng1 : ¬((project dartM ⟨(4/5), (-(3/5))⟩).2 ≤ (project rhC ⟨(4/5), (-(3/5))⟩).1 ∨
      (project rhC ⟨(4/5), (-(3/5))⟩).2 ≤ (project dartM ⟨(4/5), (-(3/5))⟩).1) := by
    rw [projSnd26, projFst27, projSnd27, projFst26]
    simp only [EReal.coe_le_coe_iff]
    norm_num
  have hov1 : overlapOn dartM rhC ⟨(4/5), (-(3/5))⟩ = ((3 : ℝ) : EReal) := by
    simp only [overlapOn]
    rw [projSnd26, projFst27, projSnd27, projFst26]
    simp only [← EReal.coe_sub, ereal_min_coe]
    exact congrArg Real.toEReal (by norm_num)
  rw [satLoop_cons_update _ _ _ _ _ _ _ hng1 hov1 (EReal.coe_lt_coe_iff.mpr (by norm_num))]
  have hng2 : ¬((project dartM ⟨(4/5), (3/5)⟩).2 ≤ (project rhC ⟨(4/5), (3/5)⟩).1 ∨
      (project rhC ⟨(4/5), (3/5)⟩).2 ≤ (project dartM ⟨(4/5), (3/5)⟩).1) := by
    rw [projSnd28, projFst29, projSnd29, projFst28]
    simp only [EReal.coe_le_coe_iff]
    norm_num
  have hov2 : overlapOn dartM rhC ⟨(4/5), (3/5)⟩ = ((3 : ℝ) : EReal) := by
    simp only [overlapOn]
    rw [projSnd28, projFst29, projSnd29, projFst28]
    simp only [← EReal.coe_sub, ereal_min_coe]
    exact congrArg Real.toEReal (by norm_num)
  have hnl2 : ¬(((3 : ℝ) : EReal) < ((3 : ℝ) : EReal)) := by
    simp only [EReal.coe_lt_coe_iff]
    norm_num
  rw [satLoop_cons_keep _ _ _ _ _ _ _ hng2 hov2 hnl2]
  have hng3 : ¬((project dartM ⟨(-(5/13)), (-(12/13))⟩).2 ≤ (project rhC ⟨(-(5/13)), (-(12/13))⟩).1 ∨
      (project rhC ⟨(-(5/13)), (-(12/13))⟩).2 ≤ (project dartM ⟨(-(5/13)), (-(12/13))⟩).1) := by
    rw [projSnd30, projFst31, projSnd31, projFst30]
    simp only [EReal.coe_le_coe_iff]
    norm_num
  have hov3 : overlapOn dartM rhC ⟨(-(5/13)), (-(12/13))⟩ = (((93/13) : ℝ) : EReal) := by
    simp only [overlapOn]
    rw [projSnd30, projFst31, projSnd31, projFst30]
    simp only [← EReal.coe_sub, ereal_min_coe]
    exact congrArg Real.toEReal (by norm_num)
  have hnl3 : ¬((((93/13) : ℝ) : EReal) < ((3 : ℝ) : EReal)) := by
    simp only [EReal.coe_lt_coe_iff]
    norm_num
  rw [satLoop_cons_keep _ _ _ _ _ _ _ hng3 hov3 hnl3]
  have hng4 : ¬((project dartM ⟨(-(4/5)), (3/5)⟩).2 ≤ (project rhC ⟨(-(4/5)), (3/5)⟩).1 ∨
      (project rhC ⟨(-(4/5)), (3/5)⟩).2 ≤ (project dartM ⟨(-(4/5)), (3/5)⟩).1) := by
    rw [projSnd32, projFst33, projSnd33, projFst32]
    simp only [EReal.coe_le_coe_iff]
    norm_num
  have hov4 : overlapOn dartM rhC ⟨(-(4/5)), (3/5)⟩ = ((3 : ℝ) : EReal) := by
    simp only [overlapOn]
    rw [projSnd32, projFst33, projSnd33, projFst32]
    simp only [← EReal.coe_sub, ereal_min_coe]
    exact congrArg Real.toEReal (by norm_num)
  have hnl4 : ¬(((3 : ℝ) : EReal) < ((3 : ℝ) : EReal)) := by
    simp only [EReal.coe_lt_coe_iff]
    norm_num
  rw [satLoop_cons_keep _ _ _ _ _ _ _ hng4 hov4 hnl4]
  have hng5 : ¬((project dartM ⟨(4/5), (3/5)⟩).2 ≤ (project rhC ⟨(4/5), (3/5)⟩).1 ∨
      (project rhC ⟨(4/5), (3/5)⟩).2 ≤ (project dartM ⟨(4/5), (3/5)⟩).1) := by
    rw [projSnd28, projFst29, projSnd29, projFst28]
    simp only [EReal.coe_le_coe_iff]
    norm_num
  have hov5 : overlapOn dartM rhC ⟨(4/5), (3/5)⟩ = ((3 : ℝ) : EReal) := by
    simp only [overlapOn]
    rw [projSnd28, projFst29, projSnd29, projFst28]
    simp only [← EReal.coe_sub, ereal_min_coe]
    exact congrArg Real.toEReal (by norm_num)
  have hnl5 : ¬(((3 : ℝ) : EReal) < ((3 : ℝ) : EReal)) := by
    simp only [EReal.coe_lt_coe_iff]
    norm_num
  rw [satLoop_cons_keep _ _ _ _ _ _ _ hng5 hov5 hnl5]
  have hng6 : ¬((project dartM ⟨(4/5), (-(3/5))⟩).2 ≤ (project rhC ⟨(4/5), (-(3/5))⟩).1 ∨
      (project rhC ⟨(4/5), (-(3/5))⟩).2 ≤ (project dartM ⟨(4/5), (-(3/5))⟩).1) := by
    rw [projSnd26, projFst27, projSnd27, projFst26]
    simp only [EReal.coe_le_coe_iff]
    norm_num
  have hov6 : overlapOn dartM rhC ⟨(4/5), (-(3/5))⟩ = ((3 : ℝ) : EReal) := by
    simp only [overlapOn]
    rw [projSnd26, projFst27, projSnd27, projFst26]
    simp only [← EReal.coe_sub, ereal_min_coe]
    exact congrArg Real.toEReal (by norm_num)
  have hnl6 : ¬(((3 : ℝ) : EReal) < ((3 : ℝ) : EReal)) := by
    simp only [EReal.coe_lt_coe_iff]
    norm_num
  rw [satLoop_cons_keep _ _ _ _ _ _ _ hng6 hov6 hnl6]
  have hng7 : ¬((project dartM ⟨(-(4/5)), (-(3/5))⟩).2 ≤ (project rhC ⟨(-(4/5)), (-(3/5))⟩).1 ∨
      (project rhC ⟨(-(4/5)), (-(3/5))⟩).2 ≤ (project dartM ⟨(-(4/5)), (-(3/5))⟩).1) := by
    rw [projSnd34, projFst35, projSnd35, projFst34]
    simp only [EReal.coe_le_coe_iff]
    norm_num
  have hov7 : overlapOn dartM rhC ⟨(-(4/5)), (-(3/5))⟩ = ((3 : ℝ) : EReal) := by
    simp only [overlapOn]
    rw [projSnd34, projFst35, projSnd35, projFst34]
    simp only [← EReal.coe_sub, ereal_min_coe]
    exact congrArg Real.toEReal (by norm_num)
  have hnl7 : ¬(((3 : ℝ) : EReal) < ((3 : ℝ) : EReal)) := by
    simp only [EReal.coe_lt_coe_iff]
    norm_num
  rw [satLoop_cons_keep _ _ _ _ _ _ _ hng7 hov7 hnl7]
  rw [satLoop_nil]

theorem satOverlap_dartM_rhC : satOverlap dartM rhC = some ⟨(-(12/5)), (9/5)⟩ := by
  simp only [satOverlap, satData_dartM_rhC]
  norm_num [polygonCentroid, dartM, rhC, EReal.toReal_coe, Pt.mk.injEq]

theorem projPair36 : project movC4 ⟨0, 1⟩ =
    ((((-(1/10)) : ℝ) : EReal), (((1/10) : ℝ) : EReal)) := by
  rw [show movC4 = ⟨(-(3/5)), (-(1/10))⟩ :: [⟨(-(2/5)), (-(1/10))⟩, ⟨(-(2/5)), (1/10)⟩, ⟨(-(3/5)), (1/10)⟩] from rfl, project_cons]
  norm_num [projLo, projHi, dotp, List.foldl]
theorem projFst36 : (project movC4 ⟨0, 1⟩).1 = (((-(1/10)) : ℝ) : EReal) := by
  rw [projPair36]
theorem projSnd36 : (project movC4 ⟨0, 1⟩).2 = (((1/10) : ℝ) : EReal) := by
  rw [projPair36]

theorem projPair37 : project centC4 ⟨0, 1⟩ =
    ((((-1) : ℝ) : EReal), ((1 : ℝ) : EReal)) := by
  rw [show centC4 = ⟨(-1), (-1)⟩ :: [⟨1, (-1)⟩, ⟨1, 1⟩, ⟨(-1), 1⟩] from rfl, project_cons]
  norm_num [projLo, projHi, dotp, List.foldl]
theorem projFst37 : (project centC4 ⟨0, 1⟩).1 = (((-1) : ℝ) : EReal) := by
  rw [projPair37]
theorem projSnd37 : (project centC4 ⟨0, 1⟩).2 = ((1 : ℝ) : EReal) := by
  rw [projPair37]

theorem projPair38 : project movC4 ⟨(-1), 0⟩ =
    ((((2/5) : ℝ) : EReal), (((3/5) : ℝ) : EReal)) := by
  rw [show movC4 = ⟨(-(3/5)), (-(1/10))⟩ :: [⟨(-(2/5)), (-(1/10))⟩, ⟨(-(2/5)), (1/10)⟩, ⟨(-(3/5)), (1/10)⟩] from rfl, project_cons]
  norm_num [projLo, projHi, dotp, List.foldl]
theorem projFst38 : (project movC4 ⟨(-1), 0⟩).1 = (((2/5) : ℝ) : EReal) := by
  rw [projPair38]
theorem projSnd38 : (project movC4 ⟨(-1), 0⟩).2 = (((3/5) : ℝ) : EReal) := by
  rw [projPair38]

theorem projPair39 : project centC4 ⟨(-1), 0⟩ =
    ((((-1) : ℝ) : EReal), ((1 : ℝ) : EReal)) := by
  rw [show centC4 = ⟨(-1), (-1)⟩ :: [⟨1, (-1)⟩, ⟨1, 1⟩, ⟨(-1), 1⟩] from rfl, project_cons]
  norm_num [projLo, projHi, dotp, List.foldl]
theorem projFst39 : (project centC4 ⟨(-1), 0⟩).1 = (((-1) : ℝ) : EReal) := by
  rw [projPair39]
theorem projSnd39 : (project centC4 ⟨(-1), 0⟩).2 = ((1 : ℝ) : EReal) := by
  rw [projPair39]

theorem projPair40 : project movC4 ⟨0, (-1)⟩ =
    ((((-(1/10)) : ℝ) : EReal), (((1/10) : ℝ) : EReal)) := by
  rw [show movC4 = ⟨(-(3/5)), (-(1/10))⟩ :: [⟨(-(2/5)), (-(1/10))⟩, ⟨(-(2/5)), (1/10)⟩, ⟨(-(3/5)), (1/10)⟩] from rfl, project_cons]
  norm_num [projLo, projHi, dotp, List.foldl]
theorem projFst40 : (project movC4 ⟨0, (-1)⟩).1 = (((-(1/10)) : ℝ) : EReal) := by
  rw [projPair40]
theorem projSnd40 : (project movC4 ⟨0, (-1)⟩).2 = (((1/10) : ℝ) : EReal) := by
  rw [projPair40]

theorem projPair41 : project centC4 ⟨0, (-1)⟩ =
    ((((-1) : ℝ) : EReal), ((1 : ℝ) : EReal)) := by
  rw [show centC4 = ⟨(-1), (-1)⟩ :: [⟨1, (-1)⟩, ⟨1, 1⟩, ⟨(-1), 1⟩] from rfl, project_cons]
  norm_num [projLo, projHi, dotp, List.foldl]
theorem projFst41 : (project centC4 ⟨0, (-1)⟩).1 = (((-1) : ℝ) : EReal) := by
  rw [projPair41]
theorem projSnd41 : (project centC4 ⟨0, (-1)⟩).2 = ((1 : ℝ) : EReal) := by
  rw [projPair41]

theorem projPair42 : project movC4 ⟨1, 0⟩ =
    ((((-(3/5)) : ℝ) : EReal), (((-(2/5)) : ℝ) : EReal)) := by
  rw [show movC4 = ⟨(-(3/5)), (-(1/10))⟩ :: [⟨(-(2/5)), (-(1/10))⟩, ⟨(-(2/5)), (1/10)⟩, ⟨(-(3/5)), (1/10)⟩] from rfl, project_cons]
  norm_num [projLo, projHi, dotp, List.foldl]
theorem projFst42 : (project movC4 ⟨1, 0⟩).1 = (((-(3/5)) : ℝ) : EReal) := by
  rw [projPair42]
theorem projSnd42 : (project movC4 ⟨1, 0⟩).2 = (((-(2/5)) : ℝ) : EReal) := by
  rw [projPair42]

theorem projPair43 : project centC4 ⟨1, 0⟩ =
    ((((-1) : ℝ) : EReal), ((1 : ℝ) : EReal)) := by
  rw [show centC4 = ⟨(-1), (-1)⟩ :: [⟨1, (-1)⟩, ⟨1, 1⟩, ⟨(-1), 1⟩] from rfl, project_cons]
  norm_num [projLo, projHi, dotp, List.foldl]
theorem projFst43 : (project centC4 ⟨1, 0⟩).1 = (((-1) : ℝ) : EReal) := by
  rw [projPair43]
theorem projSnd43 : (project centC4 ⟨1, 0⟩).2 = ((1 : ℝ) : EReal) := by
  rw [projPair43]

theorem satData_movC4_centC4 : satData movC4 centC4 =
    some ((((3/5) : ℝ) : EReal), some ⟨(-1), 0⟩) := by
  rw [satData, getAxes_movC4, getAxes_centC4]
  simp only [List.cons_append, List.nil_append]
  have hng0 : ¬((project movC4 ⟨0, 1⟩).2 ≤ (project centC4 ⟨0, 1⟩).1 ∨
      (project centC4 ⟨0, 1⟩).2 ≤ (project movC4 ⟨0, 1⟩).1) := by
    rw [projSnd36, projFst37, projSnd37, projFst36]
    simp only [EReal.coe_le_coe_iff]
    norm_num
  have hov0 : overlapOn movC4 centC4 ⟨0, 1⟩ = (((11/10) : ℝ) : EReal) := by
    simp only [overlapOn]
    rw [projSnd36, projFst37, projSnd37, projFst36]
    simp only [← EReal.coe_sub, ereal_min_coe]
    exact congrArg Real.toEReal (by norm_num)
  rw [satLoop_cons_update _ _ _ _ _ _ _ hng0 hov0 (EReal.coe_lt_top _)]
  have hng1 : ¬((project movC4 ⟨(-1), 0⟩).2 ≤ (project centC4 ⟨(-1), 0⟩).1 ∨
      (project centC4 ⟨(-1), 0⟩).2 ≤ (project movC4 ⟨(-1), 0⟩).1) := by
    rw [projSnd38, projFst39, projSnd39, projFst38]
    simp only [EReal.coe_le_coe_iff]
    norm_num
  have hov1 : overlapOn movC4 centC4 ⟨(-1), 0⟩ = (((3/5) : ℝ) : EReal) := by
    simp only [overlapOn]
    rw [projSnd38, projFst39, projSnd39, projFst38]
    simp only [← EReal.coe_sub, ereal_min_coe]
    exact congrArg Real.toEReal (by norm_num)
  rw [satLoop_cons_update _ _ _ _ _ _ _ hng1 hov1 (EReal.coe_lt_coe_iff.mpr (by norm_num))]
  have hng2 : ¬((project movC4 ⟨0, (-1)⟩).2 ≤ (project centC4 ⟨0, (-1)⟩).1 ∨
      (project centC4 ⟨0, (-1)⟩).2 ≤ (project movC4 ⟨0, (-1)⟩).1) := by
    rw [projSnd40, projFst41, projSnd41, projFst40]
    simp only [EReal.coe_le_coe_iff]
    norm_num
  have hov2 : overlapOn movC4 centC4 ⟨0, (-1)⟩ = (((11/10) : ℝ) : EReal) := by
    simp only [overlapOn]
    rw [projSnd40, projFst41, projSnd41, projFst40]
    simp only [← EReal.coe_sub, ereal_min_coe]
    exact congrArg Real.toEReal (by norm_num)
  have hnl2 : ¬((((11/10) : ℝ) : EReal) < (((3/5) : ℝ) : EReal)) := by
    simp only [EReal.coe_lt_coe_iff]
    norm_num
  rw [satLoop_cons_keep _ _ _ _ _ _ _ hng2 hov2 hnl2]
  have hng3 : ¬((project movC4 ⟨1, 0⟩).2 ≤ (project centC4 ⟨1, 0⟩).1 ∨
      (project centC4 ⟨1, 0⟩).2 ≤ (project movC4 ⟨1, 0⟩).1) := by
    rw [projSnd42, projFst43, projSnd43, projFst42]
    simp only [EReal.coe_le_coe_iff]
    norm_num
  have hov3 : overlapOn movC4 centC4 ⟨1, 0⟩ = (((3/5) : ℝ) : EReal) := by
    simp only [overlapOn]
    rw [projSnd42, projFst43, projSnd43, projFst42]
    simp only [← EReal.coe_sub, ereal_min_coe]
    exact congrArg Real.toEReal (by norm_num)
  have hnl3 : ¬((((3/5) : ℝ) : EReal) < (((3/5) : ℝ) : EReal)) := by
    simp only [EReal.coe_lt_coe_iff]
    norm_num
  rw [satLoop_cons_keep _ _ _ _ _ _ _ hng3 hov3 hnl3]
  have hng4 : ¬((project movC4 ⟨0, 1⟩).2 ≤ (project centC4 ⟨0, 1⟩).1 ∨
      (project centC4 ⟨0, 1⟩).2 ≤ (project movC4 ⟨0, 1⟩).1) := by
    rw [projSnd36, projFst37, projSnd37, projFst36]
    simp only [EReal.coe_le_coe_iff]
    norm_num
  have hov4 : overlapOn movC4 centC4 ⟨0, 1⟩ = (((11/10) : ℝ) : EReal) := by
    simp only [overlapOn]
    rw [projSnd36, projFst37, projSnd37, projFst36]
    simp only [← EReal.coe_sub, ereal_min_coe]
    exact congrArg Real.toEReal (by norm_num)
  have hnl4 : ¬((((11/10) : ℝ) : EReal) < (((3/5) : ℝ) : EReal)) := by
    simp only [EReal.coe_lt_coe_iff]
    norm_num
  rw [satLoop_cons_keep _ _ _ _ _ _ _ hng4 hov4 hnl4]
  have hng5 : ¬((project movC4 ⟨(-1), 0⟩).2 ≤ (project centC4 ⟨(-1), 0⟩).1 ∨
      (project centC4 ⟨(-1), 0⟩).2 ≤ (project movC4 ⟨(-1), 0⟩).1) := by
    rw [projSnd38, projFst39, projSnd39, projFst38]
    simp only [EReal.coe_le_coe_iff]
    norm_num
  have hov5 : overlapOn movC4 centC4 ⟨(-1), 0⟩ = (((3/5) : ℝ) : EReal) := by
    simp only [overlapOn]
    rw [projSnd38, projFst39, projSnd39, projFst38]
    simp only [← EReal.coe_sub, ereal_min_coe]
    exact congrArg Real.toEReal (by norm_num)
  have hnl5 : ¬((((3/5) : ℝ) : EReal) < (((3/5) : ℝ) : EReal)) := by
    simp only [EReal.coe_lt_coe_iff]
    norm_num
  rw [satLoop_cons_keep _ _ _ _ _ _ _ hng5 hov5 hnl5]
  have hng6 : ¬((project movC4 ⟨0, (-1)⟩).2 ≤ (project centC4 ⟨0, (-1)⟩).1 ∨
      (project centC4 ⟨0, (-1)⟩).2 ≤ (project movC4 ⟨0, (-1)⟩).1) := by
    rw [projSnd40, projFst41, projSnd41, projFst40]
    simp only [EReal.coe_le_coe_iff]
    norm_num
  have hov6 : overlapOn movC4 centC4 ⟨0, (-1)⟩ = (((11/10) : ℝ) : EReal) := by
    simp only [overlapOn]
    rw [projSnd40, projFst41, projSnd41, projFst40]
    simp only [← EReal.coe_sub, ereal_min_coe]
    exact congrArg Real.toEReal (by norm_num)
  have hnl6 : ¬((((11/10) : ℝ) : EReal) < (((3/5) : ℝ) : EReal)) := by
    simp only [EReal.coe_lt_coe_iff]
    norm_num
  rw [satLoop_cons_keep _ _ _ _ _ _ _ hng6 hov6 hnl6]
  have hng7 : ¬((project movC4 ⟨1, 0⟩).2 ≤ (project centC4 ⟨1, 0⟩).1 ∨
      (project centC4 ⟨1, 0⟩).2 ≤ (project movC4 ⟨1, 0⟩).1) := by
    rw [projSnd42, projFst43, projSnd43, projFst42]
    simp only [EReal.coe_le_coe_iff]
    norm_num
  have hov7 : overlapOn movC4 centC4 ⟨1, 0⟩ = (((3/5) : ℝ) : EReal) := by
    simp only [overlapOn]
    rw [projSnd42, projFst43, projSnd43, projFst42]
    simp only [← EReal.coe_sub, ereal_min_coe]
    exact congrArg Real.toEReal (by norm_num)
  have hnl7 : ¬((((3/5) : ℝ) : EReal) < (((3/5) : ℝ) : EReal)) := by
    simp only [EReal.coe_lt_coe_iff]
    norm_num
  rw [satLoop_cons_keep _ _ _ _ _ _ _ hng7 hov7 hnl7]
  rw [satLoop_nil]

theorem satOverlap_movC4_centC4 : satOverlap movC4 centC4 = some ⟨(-(3/5)), 0⟩ := by
  simp only [satOverlap, satData_movC4_centC4]
  norm_num [polygonCentroid, movC4, centC4, EReal.toReal_coe, Pt.mk.injEq]

theorem projPair44 : project triAshift ⟨0, (-1)⟩ =
    ((((-8) : ℝ) : EReal), (((-2) : ℝ) : EReal)) := by
  rw [show triAshift = ⟨0, 2⟩ :: [⟨8, 8⟩, ⟨(-8), 8⟩] from rfl, project_cons]
  norm_num [projLo, projHi, dotp, List.foldl]
theorem projFst44 : (project triAshift ⟨0, (-1)⟩).1 = (((-8) : ℝ) : EReal) := by
  rw [projPair44]
theorem projSnd44 : (project triAshift ⟨0, (-1)⟩).2 = (((-2) : ℝ) : EReal) := by
  rw [projPair44]

theorem projPair45 : project dartM ⟨1, 0⟩ =
    ((((-2) : ℝ) : EReal), ((10 : ℝ) : EReal)) := by
  rw [show dartM = ⟨(-2), 0⟩ :: [⟨10, 5⟩, ⟨(25/4), 0⟩, ⟨10, (-5)⟩] from rfl, project_cons]
  norm_num [projLo, projHi, dotp, List.foldl]
theorem projFst45 : (project dartM ⟨1, 0⟩).1 = (((-2) : ℝ) : EReal) := by
  rw [projPair45]
theorem projSnd45 : (project dartM ⟨1, 0⟩).2 = ((10 : ℝ) : EReal) := by
  rw [projPair45]

theorem projPair46 : project rhC ⟨1, 0⟩ =
    (((10 : ℝ) : EReal), ((16 : ℝ) : EReal)) := by
  rw [show rhC = ⟨10, 0⟩ :: [⟨13, 4⟩, ⟨16, 0⟩, ⟨13, (-4)⟩] from rfl, project_cons]
  norm_num [projLo, projHi, dotp, List.foldl]
theorem projFst46 : (project rhC ⟨1, 0⟩).1 = ((10 : ℝ) : EReal) := by
  rw [projPair46]
theorem projSnd46 : (project rhC ⟨1, 0⟩).2 = ((16 : ℝ) : EReal) := by
  rw [projPair46]

theorem projPair47 : project rectC4 ⟨1, 0⟩ =
    (((0 : ℝ) : EReal), ((2 : ℝ) : EReal)) := by
  rw [show rectC4 = ⟨0, (-1)⟩ :: [⟨2, (-1)⟩, ⟨2, 1⟩, ⟨0, 1⟩] from rfl, project_cons]
  norm_num [projLo, projHi, dotp, List.foldl]
theorem projFst47 : (project rectC4 ⟨1, 0⟩).1 = ((0 : ℝ) : EReal) := by
  rw [projPair47]
theorem projSnd47 : (project rectC4 ⟨1, 0⟩).2 = ((2 : ℝ) : EReal) := by
  rw [projPair47]

/-- The boundary record of the claim C4 counterexample. -/
noncomputable def bC4 : Boundary := ⟨0, 0, 2, 2⟩

theorem boundaryPoly_bC4 : boundaryPoly bC4 = rectC4 := by
  norm_num [boundaryPoly, bC4, rectC4, Pt.mk.injEq]

theorem boundaryPolyCentered_bC4 : boundaryPolyCentered bC4 = centC4 := by
  norm_num [boundaryPolyCentered, bC4, centC4, Pt.mk.injEq]

theorem aabb_dartM_rhC : aabbOverlap dartM rhC = false := by
  rw [aabbOverlap_false_iff]
  refine Or.inl (Or.inl ?_)
  rw [projSnd45, projFst46]

theorem aabb_movC4_rectC4 : aabbOverlap movC4 rectC4 = false := by
  rw [aabbOverlap_false_iff]
  refine Or.inl (Or.inl ?_)
  rw [projSnd42, projFst47]
  exact EReal.coe_le_coe_iff.mpr (by norm_num)

theorem resolveCollisions_dartM : resolveCollisions dartM [rhC] = ⟨0, 0⟩ := by
  simp only [resolveCollisions, List.foldl, aabb_dartM_rhC, Bool.false_eq_true, if_false]

theorem resolveBoundary_movC4 : resolveBoundaryCollisions movC4 [bC4] = ⟨0, 0⟩ := by
  simp only [resolveBoundaryCollisions, List.foldl, boundaryPoly_bC4, aabb_movC4_rectC4,
    Bool.false_eq_true, if_false]

theorem convex_rhC : ConvexPoly rhC := by
  right
  intro i hi j hj
  simp only [rhC, List.length_cons, List.length_nil] at hi hj
  interval_cases i <;> interval_cases j <;>
    norm_num [cross2, rhC, List.getD, List.get?]

theorem projPair48 : project sqFar ⟨1, 0⟩ =
    (((5/2 : ℝ) : EReal), ((7/2 : ℝ) : EReal)) := by
  rw [show sqFar = ⟨(5/2), (-(1/2))⟩ :: [⟨(7/2), (-(1/2))⟩, ⟨(7/2), (1/2)⟩, ⟨(5/2), (1/2)⟩]
    from rfl, project_cons]
  norm_num [projLo, projHi, dotp, List.foldl]

theorem projFst48 : (project sqFar ⟨1, 0⟩).1 = ((5/2 : ℝ) : EReal) := by
  rw [projPair48]

theorem aabb_sqA_sqFar : aabbOverlap sqA sqFar = false := by
  rw [aabbOverlap_false_iff]
  refine Or.inl (Or.inl ?_)
  rw [projSnd6, projFst48]
  exact EReal.coe_le_coe_iff.mpr (by norm_num)

end ConcreteInstances

noncomputable section ClaimSupport

/-- Proof infrastructure: the raw SAT MTV of a pair (zero when SAT reports no
overlap) — the unfiltered per-collider push vector of claim C3. -/
def satMTV (movingPoly collider : List Pt) : Pt :=
  match satOverlap movingPoly collider with
  | some mtv => mtv
  | none => ⟨0, 0⟩

theorem noGapOn_iff_lt (polyA polyB : List Pt) (axis : Pt) :
    noGapOn polyA polyB axis ↔
      (project polyB axis).1 < (project polyA axis).2 ∧
        (project polyA axis).1 < (project polyB axis).2 := by
  rw [noGapOn, not_or, not_le, not_le]

theorem satOverlap_some_data (polyA polyB : List Pt) (mtv : Pt)
    (h : satOverlap polyA polyB = some mtv) :
    ∃ mo ax, satData polyA polyB = some (mo, some ax) := by
  rcases hD : satData polyA polyB with - | ⟨mo, mtvOpt⟩
  · simp [satOverlap, hD] at h
  · rcases mtvOpt with - | ax
    · simp [satOverlap, hD] at h
    · exact ⟨mo, ax, rfl⟩

end ClaimSupport

section ClaimTheorems

/-- Claim C1 (confirmed): in `satOverlap`, any candidate axis with a
projection gap (`maxA ≤ minB` or `maxB ≤ minA`) forces the result `none`;
concretely, the unit squares centered at (0,0) and (0.5,0) report a push
vector of x-magnitude 0.5 and y-magnitude 0, and the unit squares centered at
(0,0) and (3,0) report `none`. -/
theorem claim_C1 :
    (∀ (polyA polyB : List Pt) (axis : Pt),
        axis ∈ getAxes polyA ++ getAxes polyB →
        (project polyA axis).2 ≤ (project polyB axis).1 ∨
          (project polyB axis).2 ≤ (project polyA axis).1 →
        satOverlap polyA polyB = none) ∧
    (∃ mtv : Pt, satOverlap sqA sqB = some mtv ∧ |mtv.x| = 1/2 ∧ mtv.y = 0) ∧
    satOverlap sqA sqFar = none := by
  refine ⟨satOverlap_none_of_gap, ⟨⟨(-(1/2)), 0⟩, satOverlap_sqA_sqB, by norm_num, rfl⟩,
    satOverlap_sqA_sqFar⟩

/-- Witness for claim C1: the separating-axis hypothesis is satisfiable — on
the squares at (0,0) and (3,0), the axis (-1, 0) is a candidate axis with a
projection gap, and the theorem yields `none` there. -/
theorem claim_C1_witness : satOverlap sqA sqFar = none :=
  claim_C1.1 sqA sqFar ⟨(-1), 0⟩ (by rw [getAxes_sqA, getAxes_sqFar]; simp)
    (Or.inr (by rw [projSnd9, projFst2]; exact EReal.coe_le_coe_iff.mpr (by norm_num)))

/-- Claim C10 (confirmed): merely touching polygons produce no push-out — a
non-strict gap on any candidate axis yields `none`; a push vector is reported
only when the projections strictly overlap on every candidate axis; and the
unit squares centered at (0,0) and (1,0), which share an edge, yield `none`. -/
theorem claim_C10 :
    (∀ (polyA polyB : List Pt) (axis : Pt),
        axis ∈ getAxes polyA ++ getAxes polyB →
        (project polyA axis).2 ≤ (project polyB axis).1 ∨
          (project polyB axis).2 ≤ (project polyA axis).1 →
        satOverlap polyA polyB = none) ∧
    (∀ (polyA polyB : List Pt) (mtv : Pt), satOverlap polyA polyB = some mtv →
        ∀ axis ∈ getAxes polyA ++ getAxes polyB,
          (project polyB axis).1 < (project polyA axis).2 ∧
            (project polyA axis).1 < (project polyB axis).2) ∧
    satOverlap sqA sqTouch = none := by
  refine ⟨satOverlap_none_of_gap, ?_, satOverlap_sqA_sqTouch⟩
  intro polyA polyB mtv h axis hax
  obtain ⟨mo, ax, hD⟩ := satOverlap_some_data polyA polyB mtv h
  obtain ⟨-, -, hng⟩ := satData_some polyA polyB mo ax hD
  exact (noGapOn_iff_lt polyA polyB axis).mp (hng axis hax)

/-- Witness for claim C10: the squares sharing an edge satisfy the gap
hypothesis on the candidate axis (-1, 0) (their projections touch at -1/2),
and the theorem yields `none` there. -/
theorem claim_C10_witness : satOverlap sqA sqTouch = none :=
  claim_C10.1 sqA sqTouch ⟨(-1), 0⟩ (by rw [getAxes_sqA, getAxes_sqTouch]; simp)
    (Or.inr (by rw [projSnd11, projFst2]))

/-- Counterexample to claim C2: on the triangles `triA` (vertex average above
its projection midpoint) and `triB` (vertex average below its projection
midpoint), the SAT test picks the axis (0, -1) with penetration depth 5 and
pushes `triA` by (0, 5) toward the centroid side — but after translating
`triA` by that vector its projections on the chosen axis still strictly
overlap `triB`'s, so the returned push does not reduce the penetration on
that axis to zero. -/
theorem claim_C2_counterexample :
    satData triA triB = some (((5 : ℝ) : EReal), some ⟨0, (-1)⟩) ∧
    satOverlap triA triB = some ⟨0, 5⟩ ∧
    (project triB ⟨0, (-1)⟩).1 < (project (translatePoly ⟨0, 5⟩ triA) ⟨0, (-1)⟩).2 ∧
    (project (translatePoly ⟨0, 5⟩ triA) ⟨0, (-1)⟩).1 < (project triB ⟨0, (-1)⟩).2 := by
  have htr : translatePoly ⟨0, 5⟩ triA = triAshift := by
    norm_num [translatePoly, triA, triAshift, Pt.mk.injEq]
  refine ⟨satData_triA_triB, satOverlap_triA_triB, ?_, ?_⟩
  · rw [htr, projFst15, projSnd44]
    exact EReal.coe_lt_coe_iff.mpr (by norm_num)
  · rw [htr, projFst44, projSnd15]
    exact EReal.coe_lt_coe_iff.mpr (by norm_num)

/-- Claim C2 as amended: (a) the returned MTV always has non-negative dot
product with the centroid difference (polyA centroid minus polyB centroid);
(b) when the centroid comparison agrees with the comparison of the projection
interval midpoints on the selected axis (as for rectangles, whose vertex
average is the projection midpoint), translating polyA by the MTV makes the
projections on that axis stop strictly overlapping. -/
theorem claim_C2_amended :
    (∀ (polyA polyB : List Pt) (mtv : Pt), satOverlap polyA polyB = some mtv →
        0 ≤ mtv.x * ((polygonCentroid polyA).x - (polygonCentroid polyB).x) +
            mtv.y * ((polygonCentroid polyA).y - (polygonCentroid polyB).y)) ∧
    (∀ (polyA polyB : List Pt) (mo : EReal) (ax : Pt) (loA hiA loB hiB : ℝ),
        satData polyA polyB = some (mo, some ax) →
        project polyA ax = (((loA : ℝ) : EReal), ((hiA : ℝ) : EReal)) →
        project polyB ax = (((loB : ℝ) : EReal), ((hiB : ℝ) : EReal)) →
        (0 ≤ ((polygonCentroid polyA).x - (polygonCentroid polyB).x) * ax.x +
             ((polygonCentroid polyA).y - (polygonCentroid polyB).y) * ax.y ↔
          loB + hiB ≤ loA + hiA) →
        ∃ mtv : Pt, satOverlap polyA polyB = some mtv ∧
          ((project (translatePoly mtv polyA) ax).2 ≤ (project polyB ax).1 ∨
           (project polyB ax).2 ≤ (project (translatePoly mtv polyA) ax).1)) := by
  constructor
  · intro polyA polyB mtv h
    obtain ⟨mo, ax, hD⟩ := satOverlap_some_data polyA polyB mtv h
    obtain ⟨hax, hmo, hng⟩ := satData_some polyA polyB mo ax hD
    obtain ⟨r, hr, hrpos⟩ := overlapOn_pos polyA polyB ax (hng ax hax)
    have hmor : mo.toReal = r := by rw [hmo, hr, EReal.toReal_coe]
    simp only [satOverlap, hD, hmor] at h
    split_ifs at h with hdot
    · rw [Option.some_inj] at h
      subst h
      simp only
      nlinarith [mul_pos hrpos (neg_pos.mpr hdot)]
    · rw [Option.some_inj] at h
      subst h
      simp only
      rw [not_lt] at hdot
      nlinarith [mul_nonneg hrpos.le hdot]
  · intro polyA polyB mo ax loA hiA loB hiB hD hpA hpB hIff
    obtain ⟨hax, hmo, hng⟩ := satData_some polyA polyB mo ax hD
    have hngax := hng ax hax
    have hlt : loB < hiA ∧ loA < hiB := by
      have h2 := (noGapOn_iff_lt polyA polyB ax).mp hngax
      rw [hpA, hpB] at h2
      exact ⟨EReal.coe_lt_coe_iff.mp h2.1, EReal.coe_lt_coe_iff.mp h2.2⟩
    have hmoval : mo = ((min (hiA - loB) (hiB - loA) : ℝ) : EReal) := by
      rw [hmo]
      simp only [overlapOn, hpA, hpB]
      simp only [← EReal.coe_sub, ereal_min_coe]
    have hmor : mo.toReal = min (hiA - loB) (hiB - loA) := by
      rw [hmoval, EReal.toReal_coe]
    have hunit : ax.x * ax.x + ax.y * ax.y = 1 := by
      rcases List.mem_append.mp hax with hmem | hmem
      exacts [axis_unit _ _ hmem, axis_unit _ _ hmem]
    obtain ⟨hAne, -⟩ := noGapOn_nonempty _ _ _ hngax
    obtain ⟨p, l, rfl⟩ := List.exists_cons_of_ne_nil hAne
    have hpc := project_cons p l ax
    rw [hpA] at hpc
    have hlo : projLo l ax (dotp p ax) = loA :=
      (EReal.coe_eq_coe_iff.mp (congrArg Prod.fst hpc)).symm
    have hhi : projHi l ax (dotp p ax) = hiA :=
      (EReal.coe_eq_coe_iff.mp (congrArg Prod.snd hpc)).symm
    by_cases hdot : ((polygonCentroid (p :: l)).x - (polygonCentroid polyB).x) * ax.x +
        ((polygonCentroid (p :: l)).y - (polygonCentroid polyB).y) * ax.y < 0
    · have hmin : min (hiA - loB) (hiB - loA) = hiA - loB := by
        have h3 : ¬(loB + hiB ≤ loA + hiA) := by
          rw [← hIff]; exact not_le.mpr hdot
        exact min_eq_left (by linarith [not_le.mp h3])
      refine ⟨⟨-ax.x * (mo.toReal), -ax.y * (mo.toReal)⟩, ?_, ?_⟩
      · simp only [satOverlap, hD]
        rw [if_pos hdot]
      · left
        have hsv : dotp ⟨-ax.x * mo.toReal, -ax.y * mo.toReal⟩ ax = -(hiA - loB) := by
          simp only [dotp, hmor, hmin]
          linear_combination (-(hiA - loB)) * hunit
        rw [project_translate, hsv, hlo, hhi, hpB]
        exact EReal.coe_le_coe_iff.mpr (by linarith)
    · have h0 : 0 ≤ ((polygonCentroid (p :: l)).x - (polygonCentroid polyB).x) * ax.x +
          ((polygonCentroid (p :: l)).y - (polygonCentroid polyB).y) * ax.y := not_lt.mp hdot
      have hmin : min (hiA - loB) (hiB - loA) = hiB - loA := by
        have h3 : loB + hiB ≤ loA + hiA := hIff.mp h0
        exact min_eq_right (by linarith)
      refine ⟨⟨ax.x * (mo.toReal), ax.y * (mo.toReal)⟩, ?_, ?_⟩
      · simp only [satOverlap, hD]
        rw [if_neg hdot]
      · right
        have hsv : dotp ⟨ax.x * mo.toReal, ax.y * mo.toReal⟩ ax = hiB - loA := by
          simp only [dotp, hmor, hmin]
          linear_combination (hiB - loA) * hunit
        rw [project_translate, hsv, hlo, hhi, hpB]
        exact EReal.coe_le_coe_iff.mpr (by linarith)

/-- Witness for claim C2's amended theorem: on the unit squares centered at
(0,0) and (0.5,0) the selected axis is (-1, 0); the centroid comparison and
the projection-midpoint comparison agree there, and translating the moving
square by the returned MTV removes the strict overlap on that axis. -/
theorem claim_C2_witness :
    ∃ mtv : Pt, satOverlap sqA sqB = some mtv ∧
      ((project (translatePoly mtv sqA) ⟨(-1), 0⟩).2 ≤ (project sqB ⟨(-1), 0⟩).1 ∨
       (project sqB ⟨(-1), 0⟩).2 ≤ (project (translatePoly mtv sqA) ⟨(-1), 0⟩).1) :=
  claim_C2_amended.2 sqA sqB _ _ (-(1/2)) (1/2) (-1) 0 satData_sqA_sqB projPair2 projPair3
    (by norm_num [polygonCentroid, sqA, sqB])

/-- Counterexample to claim C3: the concave dart `dartM` against the convex
rhombus collider `rhC`.  Their bounding boxes touch at x = 10, so the AABB
pre-filter rejects the pair and `resolveCollisions` returns (0, 0) — but the
full SAT test reports an overlap with MTV (-12/5, 9/5) (no tested edge normal
separates them; only the untested hull bridge of the dart does), so the
filtered result is not the sum of the per-collider SAT MTVs. -/
theorem claim_C3_counterexample :
    ConvexPoly rhC ∧
    aabbOverlap dartM rhC = false ∧
    satOverlap dartM rhC = some ⟨(-(12/5)), (9/5)⟩ ∧
    resolveCollisions dartM [rhC] = ⟨0, 0⟩ ∧
    satMTV dartM rhC ≠ ⟨0, 0⟩ := by
  refine ⟨convex_rhC, aabb_dartM_rhC, satOverlap_dartM_rhC, resolveCollisions_dartM, ?_⟩
  simp only [satMTV, satOverlap_dartM_rhC]
  norm_num [Pt.mk.injEq]

/-- Claim C3 as amended: `resolveCollisions` returns the componentwise sum of
the per-collider MTVs of the AABB-passing pairs; and whenever the moving
polygon's own edge normals include the coordinate axes (1,0) and (0,1) — as
they do for the game's axis-aligned character collision rectangle — an AABB
rejection implies the SAT test returns `none`, so the pre-filter never
changes the summed result. -/
theorem claim_C3_amended :
    (∀ (movingPoly : List Pt) (colliders : List (List Pt)),
        resolveCollisions movingPoly colliders =
          ⟨(colliders.map fun c => (mtvContrib movingPoly c).x).sum,
           (colliders.map fun c => (mtvContrib movingPoly c).y).sum⟩) ∧
    (∀ movingPoly : List Pt,
        (⟨1, 0⟩ : Pt) ∈ getAxes movingPoly → (⟨0, 1⟩ : Pt) ∈ getAxes movingPoly →
        (∀ collider : List Pt, aabbOverlap movingPoly collider = false →
            satOverlap movingPoly collider = none) ∧
        (∀ colliders : List (List Pt),
          resolveCollisions movingPoly colliders =
            ⟨(colliders.map fun c => (satMTV movingPoly c).x).sum,
             (colliders.map fun c => (satMTV movingPoly c).y).sum⟩)) := by
  refine ⟨resolveCollisions_eq_sum, ?_⟩
  intro m hx hy
  have hnone : ∀ collider, aabbOverlap m collider = false →
      satOverlap m collider = none := by
    intro c hc
    rcases (aabbOverlap_false_iff m c).mp hc with hgap | hgap
    · exact satOverlap_none_of_gap m c ⟨1, 0⟩ (List.mem_append_left _ hx) hgap
    · exact satOverlap_none_of_gap m c ⟨0, 1⟩ (List.mem_append_left _ hy) hgap
  refine ⟨hnone, ?_⟩
  intro cols
  rw [resolveCollisions_eq_sum]
  have hc : ∀ c, mtvContrib m c = satMTV m c := by
    intro c
    by_cases hab : aabbOverlap m c = true
    · simp only [mtvContrib, satMTV, hab, if_true]
    · have hab2 : aabbOverlap m c = false := by simpa using hab
      simp only [mtvContrib, satMTV, hab2, hnone c hab2, Bool.false_eq_true, if_false]
  simp only [hc]

/-- Witness for claim C3's amended theorem: the unit square `sqA` has both
coordinate axes among its edge normals, so the AABB-rejected pair with the
far square yields SAT `none`, and the filtered sum equals the unfiltered sum
on a collider list. -/
theorem claim_C3_witness :
    satOverlap sqA sqFar = none ∧
    resolveCollisions sqA [sqB, sqFar] =
      ⟨(([sqB, sqFar].map fun c => (satMTV sqA c).x).sum),
       (([sqB, sqFar].map fun c => (satMTV sqA c).y).sum)⟩ := by
  have hx : (⟨1, 0⟩ : Pt) ∈ getAxes sqA := by rw [getAxes_sqA]; simp
  have hy : (⟨0, 1⟩ : Pt) ∈ getAxes sqA := by rw [getAxes_sqA]; simp
  exact ⟨(claim_C3_amended.2 sqA hx hy).1 sqFar aabb_sqA_sqFar,
    (claim_C3_amended.2 sqA hx hy).2 [sqB, sqFar]⟩

/-- Counterexample to claim C4: for the boundary record (x=0, y=0, width=2,
height=2) the routine tests against the rectangle spanning x in 0..2, not the
claimed centered rectangle spanning x in -1..1: a small square strictly
inside the claimed centered rectangle (around (-1/2, 0)) is AABB-rejected by
the code's rectangle and gets zero push, although SAT against the centered
rectangle reports the overlap (-3/5, 0). -/
theorem claim_C4_counterexample :
    resolveBoundaryCollisions movC4 [bC4] = ⟨0, 0⟩ ∧
    satOverlap movC4 (boundaryPolyCentered bC4) = some ⟨(-(3/5)), 0⟩ ∧
    boundaryPoly bC4 ≠ boundaryPolyCentered bC4 := by
  refine ⟨resolveBoundary_movC4, ?_, ?_⟩
  · rw [boundaryPolyCentered_bC4]
    exact satOverlap_movC4_centC4
  · rw [boundaryPoly_bC4, boundaryPolyCentered_bC4]
    norm_num [rectC4, centC4, Pt.mk.injEq]

/-- Claim C4 as amended: the boundary-resolution routine tests the moving
polygon against the 4-point axis-aligned rectangle spanning
`x .. x + width` horizontally (left edge at the record's x, not centered) and
`y - height/2 .. y + height/2` vertically, and otherwise runs the identical
mechanism as `resolveCollisions` over those rectangles. -/
theorem claim_C4_amended :
    (∀ b : Boundary, boundaryPoly b =
        [⟨b.x, b.y - b.height / 2⟩, ⟨b.x + b.width, b.y - b.height / 2⟩,
         ⟨b.x + b.width, b.y + b.height / 2⟩, ⟨b.x, b.y + b.height / 2⟩]) ∧
    (∀ (movingPoly : List Pt) (boundaries : List Boundary),
        resolveBoundaryCollisions movingPoly boundaries =
          resolveCollisions movingPoly (boundaries.map boundaryPoly)) := by
  refine ⟨fun b => rfl, ?_⟩
  intro m bs
  rw [resolveBoundaryCollisions, resolveCollisions, List.foldl_map]

end ClaimTheorems

end DaggerQuest


namespace DaggerQuest

section DirectionLemmas

variable {α : Type} [LinearOrderedField α] [FloorRing α]

theorem normDown_measure (a : α) (h : 180 < a) : (⌈a - 360⌉).toNat < (⌈a⌉).toNat := by
  have h1 : (180 : ℤ) < ⌈a⌉ := by
    rw [Int.lt_ceil]; exact_mod_cast h
  have h2 : ⌈a - 360⌉ = ⌈a⌉ - 360 := by
    rw [show (360 : α) = ((360 : ℤ) : α) by norm_num, Int.ceil_sub_int]
  rw [h2]; omega

theorem normUp_measure (a : α) (h : a < -180) : (-⌊a + 360⌋).toNat < (-⌊a⌋).toNat := by
  have h1 : ⌊a⌋ < -180 := by
    rw [Int.floor_lt]; exact_mod_cast h
  have h2 : ⌊a + 360⌋ = ⌊a⌋ + 360 := by
    rw [show (360 : α) = ((360 : ℤ) : α) by norm_num, Int.floor_add_int]
  rw [h2]; omega

theorem normDown_le (a : α) : normDown a ≤ 180 := by
  generalize hn : (⌈a⌉).toNat = n
  induction n using Nat.strong_induction_on generalizing a with
  | _ n ih =>
    rw [normDown]
    split
    · next h => exact ih _ (hn ▸ normDown_measure a h) _ rfl
    · next h => exact not_lt.mp h

theorem normDown_mod (a : α) : ∃ k : ℤ, normDown a = a - 360 * k := by
  generalize hn : (⌈a⌉).toNat = n
  induction n using Nat.strong_induction_on generalizing a with
  | _ n ih =>
    rw [normDown]
    split
    · next h =>
      obtain ⟨k, hk⟩ := ih _ (hn ▸ normDown_measure a h) (a - 360) rfl
      exact ⟨k + 1, by push_cast; rw [hk]; ring⟩
    · exact ⟨0, by ring⟩

theorem normUp_ge (a : α) : -180 ≤ normUp a := by
  generalize hn : (-⌊a⌋).toNat = n
  induction n using Nat.strong_induction_on generalizing a with
  | _ n ih =>
    rw [normUp]
    split
    · next h => exact ih _ (hn ▸ normUp_measure a h) _ rfl
    · next h => exact not_lt.mp h

theorem normUp_le (a : α) (ha : a ≤ 180) : normUp a ≤ 180 := by
  generalize hn : (-⌊a⌋).toNat = n
  induction n using Nat.strong_induction_on generalizing a with
  | _ n ih =>
    rw [normUp]
    split
    · next h => exact ih _ (hn ▸ normUp_measure a h) _ (by linarith) rfl
    · next h => exact ha

theorem normUp_mod (a : α) : ∃ k : ℤ, normUp a = a + 360 * k := by
  generalize hn : (-⌊a⌋).toNat = n
  induction n using Nat.strong_induction_on generalizing a with
  | _ n ih =>
    rw [normUp]
    split
    · next h =>
      obtain ⟨k, hk⟩ := ih _ (hn ▸ normUp_measure a h) (a + 360) rfl
      exact ⟨k + 1, by push_cast; rw [hk]; ring⟩
    · exact ⟨0, by ring⟩

theorem normalize_ge (a : α) : -180 ≤ normUp (normDown a) := normUp_ge _

theorem normalize_le (a : α) : normUp (normDown a) ≤ 180 := normUp_le _ (normDown_le a)

theorem normalize_mod (a : α) : ∃ k : ℤ, normUp (normDown a) = a + 360 * k := by
  obtain ⟨k1, h1⟩ := normDown_mod a
  obtain ⟨k2, h2⟩ := normUp_mod (normDown a)
  exact ⟨k2 - k1, by rw [h2, h1]; push_cast; ring⟩

theorem circDiff_eq_claimDist (n d : α) (hn1 : -180 ≤ n) (hn2 : n ≤ 180)
    (hd1 : -180 ≤ d) (hd2 : d ≤ 180) : circDiff n d = claimDist n d := by
  have habs : |n - d| ≤ 360 := abs_le.mpr ⟨by linarith, by linarith⟩
  simp only [circDiff, claimDist]
  split
  · next h => exact (min_eq_right (by linarith)).symm
  · next h => exact (min_eq_left (by linarith [not_lt.mp h])).symm

theorem claimDist_180 (d : α) (hd1 : -180 ≤ d) (hd2 : d ≤ 180) :
    claimDist (180 : α) d = claimDist (-180 : α) d := by
  simp only [claimDist]
  rw [show |(180 : α) - d| = 180 - d from abs_of_nonneg (by linarith),
    show |(-180 : α) - d| = 180 + d by
      rw [show (-180 : α) - d = -(180 + d) by ring, abs_neg]; exact abs_of_nonneg (by linarith)]
  rw [show (360 : α) - (180 - d) = 180 + d by ring, show (360 : α) - (180 + d) = 180 - d by ring]
  exact min_comm _ _

theorem claimDist_congr (n1 n2 d : α) (h11 : -180 ≤ n1) (h12 : n1 ≤ 180)
    (h21 : -180 ≤ n2) (h22 : n2 ≤ 180) (hd1 : -180 ≤ d) (hd2 : d ≤ 180)
    (hk : ∃ k : ℤ, n1 - n2 = 360 * k) : claimDist n1 d = claimDist n2 d := by
  obtain ⟨k, hkk⟩ := hk
  have hkb : k = -1 ∨ k = 0 ∨ k = 1 := by
    have hb1 : ((-1 : ℤ) : α) ≤ (k : α) := by
      rw [show ((-1 : ℤ) : α) = -1 by push_cast; ring]
      nlinarith [hkk]
    have hb2 : ((k : ℤ) : α) ≤ ((1 : ℤ) : α) := by
      rw [show ((1 : ℤ) : α) = 1 by push_cast; ring]
      nlinarith [hkk]
    have hb1i : (-1 : ℤ) ≤ k := by exact_mod_cast hb1
    have hb2i : k ≤ 1 := by exact_mod_cast hb2
    omega
  rcases hkb with rfl | rfl | rfl
  · have he1 : n1 = -180 := by push_cast at hkk; linarith
    have he2 : n2 = 180 := by push_cast at hkk; linarith
    rw [he1, he2, claimDist_180 d hd1 hd2]
  · have : n1 = n2 := by push_cast at hkk; linarith
    rw [this]
  · have he1 : n1 = 180 := by push_cast at hkk; linarith
    have he2 : n2 = -180 := by push_cast at hkk; linarith
    rw [he1, he2, claimDist_180 d hd1 hd2]

theorem findClosestLoop_spec (n : α) (l : List α) :
    ∀ c : α,
      ((findClosestLoop n l c (some (circDiff n c)) = c ∧
          ∀ d ∈ l, circDiff n c ≤ circDiff n d) ∨
        (∃ l1 l2, l = l1 ++ findClosestLoop n l c (some (circDiff n c)) :: l2 ∧
          circDiff n (findClosestLoop n l c (some (circDiff n c))) < circDiff n c ∧
          (∀ d ∈ l1, circDiff n (findClosestLoop n l c (some (circDiff n c))) < circDiff n d) ∧
          ∀ d ∈ l2, circDiff n (findClosestLoop n l c (some (circDiff n c))) ≤ circDiff n d)) := by
  induction l with
  | nil => intro c; exact Or.inl ⟨rfl, by simp⟩
  | cons d rest ih =>
    intro c
    by_cases hlt : circDiff n d < circDiff n c
    · have hred : findClosestLoop n (d :: rest) c (some (circDiff n c)) =
          findClosestLoop n rest d (some (circDiff n d)) := by
        simp only [findClosestLoop, if_pos hlt]
      rw [hred]
      rcases ih d with ⟨heq, hall⟩ | ⟨l1, l2, hsplit, hc, h1, h2⟩
      · refine Or.inr ⟨[], rest, ?_, ?_, by simp, ?_⟩
        · rw [heq]; rfl
        · rw [heq]; exact hlt
        · intro e he; rw [heq]; exact hall e he
      · refine Or.inr ⟨d :: l1, l2, ?_, lt_trans hc hlt, ?_, h2⟩
        · conv_lhs => rw [hsplit]
          rfl
        · intro e he
          rcases List.mem_cons.mp he with rfl | he2
          · exact hc
          · exact h1 e he2
    · have hred : findClosestLoop n (d :: rest) c (some (circDiff n c)) =
          findClosestLoop n rest c (some (circDiff n c)) := by
        simp only [findClosestLoop, if_neg hlt]
      rw [hred]
      rcases ih c with ⟨heq, hall⟩ | ⟨l1, l2, hsplit, hc, h1, h2⟩
      · refine Or.inl ⟨heq, ?_⟩
        intro e he
        rcases List.mem_cons.mp he with rfl | he2
        · exact not_lt.mp hlt
        · exact hall e he2
      · refine Or.inr ⟨d :: l1, l2, ?_, hc, ?_, h2⟩
        · conv_lhs => rw [hsplit]
          rfl
        · intro e he
          rcases List.mem_cons.mp he with rfl | he2
          · exact lt_of_lt_of_le hc (not_lt.mp hlt)
          · exact h1 e he2

theorem findClosestLoop_congr (n1 n2 : α) (l : List α)
    (h : ∀ d ∈ l, circDiff n1 d = circDiff n2 d) :
    ∀ (c : α) (m : Option α), findClosestLoop n1 l c m = findClosestLoop n2 l c m := by
  induction l with
  | nil => intro c m; rfl
  | cons d rest ih =>
    intro c m
    have hd : circDiff n1 d = circDiff n2 d := h d (by simp)
    have hrest : ∀ e ∈ rest, circDiff n1 e = circDiff n2 e := fun e he => h e (by simp [he])
    cases m with
    | none => simp only [findClosestLoop, hd]; exact ih hrest d _
    | some mv =>
      simp only [findClosestLoop, hd]
      split <;> exact ih hrest _ _

theorem findClosestDirection_cons (angles0 : α) (angles : List α) (angle : α) :
    findClosestDirection (angles0 :: angles) angle =
      findClosestLoop (normUp (normDown angle)) angles angles0
        (some (circDiff (normUp (normDown angle)) angles0)) := by
  simp only [findClosestDirection, findClosestLoop, List.headD]

theorem specNormalize_bounds (a : α) : -180 < specNormalize a ∧ specNormalize a ≤ 180 := by
  have h1 : (a - 180) / 360 ≤ (⌈(a - 180) / 360⌉ : α) := Int.le_ceil _
  have h2 : ((⌈(a - 180) / 360⌉ : ℤ) : α) < (a - 180) / 360 + 1 := Int.ceil_lt_add_one _
  constructor
  · rw [specNormalize]; nlinarith
  · rw [specNormalize]; nlinarith

theorem norm_spec_diff (θ : α) :
    ∃ k : ℤ, normUp (normDown θ) - specNormalize θ = 360 * k := by
  obtain ⟨k1, h1⟩ := normalize_mod θ
  exact ⟨k1 + ⌈(θ - 180) / 360⌉, by rw [h1, specNormalize]; push_cast; ring⟩

theorem claimDist_norm_eq (θ d : α) (hd1 : -180 < d) (hd2 : d ≤ 180) :
    circDiff (normUp (normDown θ)) d = claimDist (specNormalize θ) d := by
  rw [circDiff_eq_claimDist _ _ (normalize_ge θ) (normalize_le θ) (le_of_lt hd1) hd2]
  exact claimDist_congr _ _ _ (normalize_ge θ) (normalize_le θ)
    (le_of_lt (specNormalize_bounds θ).1) (specNormalize_bounds θ).2 (le_of_lt hd1) hd2
    ⟨_, norm_spec_diff θ |>.choose_spec⟩

theorem circDiff_norm_shift (θ δ d : α) (hd1 : -180 < d) (hd2 : d ≤ 180)
    (hδ : ∃ k : ℤ, δ = 360 * k) :
    circDiff (normUp (normDown (θ + δ))) d = circDiff (normUp (normDown θ)) d := by
  rw [circDiff_eq_claimDist _ _ (normalize_ge _) (normalize_le _) (le_of_lt hd1) hd2,
    circDiff_eq_claimDist _ _ (normalize_ge _) (normalize_le _) (le_of_lt hd1) hd2]
  obtain ⟨k, rfl⟩ := hδ
  obtain ⟨k1, h1⟩ := normalize_mod (θ + 360 * (k : α))
  obtain ⟨k2, h2⟩ := normalize_mod θ
  exact claimDist_congr _ _ _ (normalize_ge _) (normalize_le _) (normalize_ge _)
    (normalize_le _) (le_of_lt hd1) hd2
    ⟨k + k1 - k2, by rw [h1, h2]; push_cast; ring⟩

theorem mkAngles_sorted (n : ℕ) : List.Sorted (· ≤ ·) (mkAngles (α := α) n) :=
  List.sorted_insertionSort _ _

theorem mem_mkAngles (n : ℕ) (x : α) (hx : x ∈ mkAngles n) : -180 < x ∧ x ≤ 180 := by
  rw [mkAngles] at hx
  obtain ⟨i, hi, rfl⟩ :=
    List.mem_map.mp ((List.Perm.mem_iff (List.perm_insertionSort _ _)).mp hx)
  rw [List.mem_range] at hi
  have hn0 : 0 < n := Nat.pos_of_ne_zero (by rintro rfl; exact Nat.not_lt_zero i hi)
  have hnpos : (0 : α) < (n : α) := by exact_mod_cast hn0
  have hstep : (0 : α) < 360 / (n : α) := by positivity
  have hlt : (i : α) * (360 / (n : α)) < 360 := by
    have hin : (i : α) < (n : α) := by exact_mod_cast hi
    have := mul_lt_mul_of_pos_right hin hstep
    calc (i : α) * (360 / (n : α)) < (n : α) * (360 / (n : α)) := this
      _ = 360 := by field_simp
  have hge : (0 : α) ≤ (i : α) * (360 / (n : α)) := by positivity
  dsimp only
  split
  · next h => exact ⟨by linarith, by linarith⟩
  · next h => exact ⟨by linarith, not_lt.mp h⟩

theorem mkAngles_length (n : ℕ) : (mkAngles (α := α) n).length = n := by
  rw [mkAngles, (List.perm_insertionSort _ _).length_eq, List.length_map, List.length_range]

theorem mkAngles_ne_nil (n : ℕ) (hn : 1 ≤ n) : mkAngles (α := α) n ≠ [] := by
  intro h
  have := mkAngles_length (α := α) n
  rw [h] at this
  simp at this
  omega

/-- **C5.** For every input angle `θ` and every direction set `D = mkAngles n`
(`n ≥ 1` evenly spaced angles normalized to `(-180, 180]` and sorted
ascending), `findClosestDirection D θ` is a member of `D`, minimizes the
circular distance `min(|a-b|, 360-|a-b|)` to `θ` normalized into
`(-180, 180]`, is invariant under adding or subtracting `360` from `θ`, and
on ties returns the member earliest in `D`'s ascending order (every earlier
member is strictly farther). -/
theorem claim_C5 (n : ℕ) (θ : α) (hn : 1 ≤ n) :
    findClosestDirection (mkAngles n) θ ∈ mkAngles (α := α) n ∧
    List.Sorted (· ≤ ·) (mkAngles (α := α) n) ∧
    (∀ d ∈ mkAngles (α := α) n,
      claimDist (specNormalize θ) (findClosestDirection (mkAngles n) θ) ≤
        claimDist (specNormalize θ) d) ∧
    findClosestDirection (mkAngles n) (θ + 360) = findClosestDirection (mkAngles n) θ ∧
    findClosestDirection (mkAngles n) (θ - 360) = findClosestDirection (mkAngles n) θ ∧
    ∃ l1 l2, mkAngles (α := α) n = l1 ++ findClosestDirection (mkAngles n) θ :: l2 ∧
      ∀ d ∈ l1,
        claimDist (specNormalize θ) (findClosestDirection (mkAngles n) θ) <
          claimDist (specNormalize θ) d := by
  obtain ⟨a, rest, hD⟩ : ∃ a rest, mkAngles (α := α) n = a :: rest := by
    rcases hm : mkAngles (α := α) n with _ | ⟨a, rest⟩
    · exact absurd hm (mkAngles_ne_nil n hn)
    · exact ⟨a, rest, rfl⟩
  have hcons : findClosestDirection (mkAngles (α := α) n) θ =
      findClosestLoop (normUp (normDown θ)) rest a
        (some (circDiff (normUp (normDown θ)) a)) := by
    rw [hD, findClosestDirection_cons]
  obtain ⟨w, hw⟩ : ∃ w, findClosestLoop (normUp (normDown θ)) rest a
      (some (circDiff (normUp (normDown θ)) a)) = w := ⟨_, rfl⟩
  rw [hw] at hcons
  have hspec := findClosestLoop_spec (normUp (normDown θ)) rest a
  rw [hw] at hspec
  have hbridge : ∀ d ∈ mkAngles (α := α) n,
      circDiff (normUp (normDown θ)) d = claimDist (specNormalize θ) d := fun d hd =>
    claimDist_norm_eq θ d (mem_mkAngles n d hd).1 (mem_mkAngles n d hd).2
  have key : w ∈ mkAngles (α := α) n ∧
      (∀ d ∈ mkAngles (α := α) n,
        circDiff (normUp (normDown θ)) w ≤ circDiff (normUp (normDown θ)) d) ∧
      ∃ l1 l2, mkAngles (α := α) n = l1 ++ w :: l2 ∧
        ∀ d ∈ l1,
          circDiff (normUp (normDown θ)) w < circDiff (normUp (normDown θ)) d := by
    rcases hspec with ⟨heq, hall⟩ | ⟨l1, l2, hsplit, hcl, h1, h2⟩
    · refine ⟨?_, ?_, [], rest, ?_, by simp⟩
      · rw [heq, hD]; exact List.mem_cons_self _ _
      · intro d hd
        rw [hD] at hd
        rcases List.mem_cons.mp hd with rfl | hd2
        · exact le_of_eq (by rw [heq])
        · rw [heq]; exact hall d hd2
      · rw [heq, hD]
        rfl
    · refine ⟨?_, ?_, a :: l1, l2, ?_, ?_⟩
      · rw [hD, hsplit]
        exact List.mem_cons_of_mem _ (List.mem_append_right _ (List.mem_cons_self _ _))
      · intro d hd
        rw [hD, hsplit] at hd
        rcases List.mem_cons.mp hd with rfl | hd2
        · exact le_of_lt hcl
        rcases List.mem_append.mp hd2 with hd3 | hd4
        · exact le_of_lt (h1 d hd3)
        rcases List.mem_cons.mp hd4 with rfl | hd5
        · exact le_refl _
        · exact h2 d hd5
      · rw [hD, hsplit]
        rfl
      · intro d hd
        rcases List.mem_cons.mp hd with rfl | hd2
        · exact hcl
        · exact h1 d hd2
  obtain ⟨hmem, hminC, l1, l2, hsplit, hstrict⟩ := key
  have hinv : ∀ δ : α, (∃ k : ℤ, δ = 360 * k) →
      findClosestDirection (mkAngles (α := α) n) (θ + δ) =
        findClosestDirection (mkAngles (α := α) n) θ := by
    intro δ hδ
    have hpt : ∀ d ∈ mkAngles (α := α) n,
        circDiff (normUp (normDown (θ + δ))) d = circDiff (normUp (normDown θ)) d :=
      fun d hd =>
        circDiff_norm_shift θ δ d (mem_mkAngles n d hd).1 (mem_mkAngles n d hd).2 hδ
    have ha : circDiff (normUp (normDown (θ + δ))) a = circDiff (normUp (normDown θ)) a :=
      hpt a (by rw [hD]; exact List.mem_cons_self _ _)
    have hrest : ∀ d ∈ rest,
        circDiff (normUp (normDown (θ + δ))) d = circDiff (normUp (normDown θ)) d :=
      fun d hd => hpt d (by rw [hD]; exact List.mem_cons_of_mem _ hd)
    rw [hD, findClosestDirection_cons, findClosestDirection_cons, ha]
    exact findClosestLoop_congr _ _ rest hrest a _
  refine ⟨by rw [hcons]; exact hmem, mkAngles_sorted n, ?_, ?_, ?_,
    l1, l2, by rw [hcons]; exact hsplit, ?_⟩
  · intro d hd
    rw [hcons, ← hbridge w hmem, ← hbridge d hd]
    exact hminC d hd
  · exact hinv 360 ⟨1, by norm_num⟩
  · have h2 := hinv (-360) ⟨-1, by norm_num⟩
    rwa [show θ + (-360 : α) = θ - 360 from by ring] at h2
  · intro d hd
    have hdmem : d ∈ mkAngles (α := α) n := by
      rw [hsplit]; exact List.mem_append_left _ hd
    rw [hcons, ← hbridge w hmem, ← hbridge d hdmem]
    exact hstrict d hd

/-- Witness for C5: the game's 16-direction set with input angle `200`,
which normalizes to `-160`. -/
theorem claim_C5_witness :
    1 ≤ 16 ∧
    (findClosestDirection (mkAngles 16) (200 : ℚ) ∈ mkAngles (α := ℚ) 16 ∧
      List.Sorted (· ≤ ·) (mkAngles (α := ℚ) 16) ∧
      (∀ d ∈ mkAngles (α := ℚ) 16,
        claimDist (specNormalize (200 : ℚ)) (findClosestDirection (mkAngles 16) 200) ≤
          claimDist (specNormalize (200 : ℚ)) d) ∧
      findClosestDirection (mkAngles 16) ((200 : ℚ) + 360) =
        findClosestDirection (mkAngles 16) 200 ∧
      findClosestDirection (mkAngles 16) ((200 : ℚ) - 360) =
        findClosestDirection (mkAngles 16) 200 ∧
      ∃ l1 l2, mkAngles (α := ℚ) 16 = l1 ++ findClosestDirection (mkAngles 16) (200 : ℚ) :: l2 ∧
        ∀ d ∈ l1,
          claimDist (specNormalize (200 : ℚ)) (findClosestDirection (mkAngles 16) 200) <
            claimDist (specNormalize (200 : ℚ)) d) :=
  ⟨by norm_num, claim_C5 16 (200 : ℚ) (by norm_num)⟩

end DirectionLemmas

section AnimationClaims

/-- A table with animation `"walk"` populated only at direction `45`: the
concrete instance called out by the spec's fallback example. -/
def walkTable45 : AnimTable ℚ := [("walk", [((45 : ℚ), [1, 2, 3])])]

/-- **C6.** For every animation frame table, animation name and requested
direction: the lookup returns the exact `(animName, direction)` sequence when
present and non-empty; falls back to the first available direction's sequence
(insertion order) when the exact entry is missing or empty; returns `[]` when
the animation name is absent (the function is total — it never throws);
`Gear._getFrames` implements the same lookup; and the concrete walk-only-45
table yields the direction-45 sequence for `framesFor("walk", 200)`. -/
theorem claim_C6 {α : Type} [DecidableEq α] (t : AnimTable α) (animName : String)
    (direction : α) :
    (∀ anim frames, t.lookup animName = some anim →
      anim.lookup direction = some frames → frames ≠ [] →
      getAnimationFrames t animName direction = frames) ∧
    (∀ anim, t.lookup animName = some anim → anim.lookup direction = none →
      getAnimationFrames t animName direction = firstDirFrames anim) ∧
    (∀ anim, t.lookup animName = some anim → anim.lookup direction = some [] →
      getAnimationFrames t animName direction = firstDirFrames anim) ∧
    (t.lookup animName = none → getAnimationFrames t animName direction = []) ∧
    gearGetFrames t animName direction = getAnimationFrames t animName direction ∧
    getAnimationFrames walkTable45 "walk" (200 : ℚ) = [1, 2, 3] := by
  refine ⟨?_, ?_, ?_, ?_, rfl, rfl⟩
  · intro anim frames h1 h2 h3
    simp only [getAnimationFrames, h1, h2]
    exact if_neg h3
  · intro anim h1 h2
    simp only [getAnimationFrames, h1, h2]
  · intro anim h1 h2
    simp only [getAnimationFrames, h1, h2, if_true]
  · intro h1
    simp only [getAnimationFrames, h1]

end AnimationClaims

section GearClaims

variable {α : Type} [DecidableEq α]

/-- **C8.** After any animation or direction change on the character, one
`Gear._sync` pass leaves the overlay's displayed frame index (and its
shadow's) equal to `min(characterFrame, overlayTotalFrames - 1)`, and the
overlay's active `(animName, direction)` pair equal to the character's
currently displayed pair as resolved through the texture-map reverse
lookup. -/
theorem claim_C8 (g : GearState α) (charTable : AnimTable α) (cs gs : GearSprite)
    (animName : String) (direction : α)
    (hgs : g.sprite = some gs)
    (hrl : reverseLookup charTable cs.textures = some (animName, direction)) :
    (∀ gs', (gearSync g charTable (some cs)).sprite = some gs' →
      gs'.currentFrame = min cs.currentFrame (gs'.textures.length - 1)) ∧
    (∀ ss', (gearSync g charTable (some cs)).shadowSprite = some ss' →
      ss'.currentFrame = min cs.currentFrame (ss'.textures.length - 1)) ∧
    (gearSync g charTable (some cs)).currentAnimName = some animName ∧
    (gearSync g charTable (some cs)).currentDirection = some direction := by
  rcases g with ⟨gsp, gsh, tex, shtex, can, cdir⟩
  simp only at hgs
  subst hgs
  refine ⟨?_, ?_, ?_, ?_⟩
  · intro gs' h
    simp only [gearSync, hrl] at h
    by_cases hch : some animName ≠ can ∨ some direction ≠ cdir <;>
      by_cases hf : gearGetFrames tex animName direction = [] <;>
      by_cases hsf : gearGetFrames shtex animName direction = [] <;>
      cases gsh <;>
      simp [hch, hf, hsf] at h <;>
      cases h <;> rfl
  · intro ss' h
    simp only [gearSync, hrl] at h
    by_cases hch : some animName ≠ can ∨ some direction ≠ cdir <;>
      by_cases hf : gearGetFrames tex animName direction = [] <;>
      by_cases hsf : gearGetFrames shtex animName direction = [] <;>
      cases gsh <;>
      simp [hch, hf, hsf] at h <;>
      cases h <;> rfl
  · simp only [gearSync, hrl]
    by_cases hch : some animName ≠ can ∨ some direction ≠ cdir <;>
      by_cases hf : gearGetFrames tex animName direction = [] <;>
      by_cases hsf : gearGetFrames shtex animName direction = [] <;>
      cases gsh <;>
      simp [hch, hf, hsf] <;>
      (push_neg at hch; exact hch.1.symm)
  · simp only [gearSync, hrl]
    by_cases hch : some animName ≠ can ∨ some direction ≠ cdir <;>
      by_cases hf : gearGetFrames tex animName direction = [] <;>
      by_cases hsf : gearGetFrames shtex animName direction = [] <;>
      cases gsh <;>
      simp [hch, hf, hsf] <;>
      (push_neg at hch; exact hch.2.symm)

/-- A character frame table for the gear-sync witness: `walk` at directions
`0` and `45`, `idle` at `0`. -/
def charTableW : AnimTable ℚ :=
  [("walk", [((0 : ℚ), [10, 11, 12]), ((45 : ℚ), [13, 14])]),
   ("idle", [((0 : ℚ), [20, 21])])]

/-- A gear overlay mid-change: its active pair is still `("idle", 0)` while
the character already displays `("walk", 45)`. -/
def gearW : GearState ℚ :=
  { sprite := some ⟨[99], 0⟩
    shadowSprite := some ⟨[98, 97], 1⟩
    tex := [("walk", [((45 : ℚ), [30, 31])])]
    shadowTex := [("walk", [((45 : ℚ), [40])])]
    currentAnimName := some "idle"
    currentDirection := some (0 : ℚ) }

/-- Witness for C8: a character on `("walk", 45)` at frame `5` and a gear
overlay still on `("idle", 0)`; one sync pass swaps the overlay to the walk
textures and clamps both frame indices. -/
theorem claim_C8_witness :
    gearW.sprite = some ⟨[99], 0⟩ ∧
    reverseLookup charTableW ((⟨[13, 14], 5⟩ : GearSprite).textures) =
      some ("walk", (45 : ℚ)) ∧
    ((∀ gs', (gearSync gearW charTableW (some ⟨[13, 14], 5⟩)).sprite = some gs' →
        gs'.currentFrame =
          min (⟨[13, 14], 5⟩ : GearSprite).currentFrame (gs'.textures.length - 1)) ∧
      (∀ ss', (gearSync gearW charTableW (some ⟨[13, 14], 5⟩)).shadowSprite = some ss' →
        ss'.currentFrame =
          min (⟨[13, 14], 5⟩ : GearSprite).currentFrame (ss'.textures.length - 1)) ∧
      (gearSync gearW charTableW (some ⟨[13, 14], 5⟩)).currentAnimName = some "walk" ∧
      (gearSync gearW charTableW (some ⟨[13, 14], 5⟩)).currentDirection = some (45 : ℚ)) :=
  ⟨rfl, by decide,
    claim_C8 gearW charTableW ⟨[13, 14], 5⟩ ⟨[99], 0⟩ "walk" 45 rfl (by decide)⟩

end GearClaims

noncomputable section MovementClaims

/-- Shared evaluation: on the far branch (`distance ≥ 5`), `update` moves the
position by `ratio = min(effectiveSpeed·delta/60/distance, 1)` of the
remaining vector. -/
theorem update_move (c : CharState) (delta : ℝ) (target : ℝ × ℝ)
    (ht : c.targetPosition = some target)
    (hfar : ¬ Real.sqrt ((target.1 - c.x) * (target.1 - c.x) +
        (target.2 - c.y) * (target.2 - c.y)) < 5) :
    (update c delta).x = c.x + (target.1 - c.x) *
      min (Real.sqrt ((c.speed * Real.cos (atan2 (target.2 - c.y) (target.1 - c.x))) ^ 2 +
            (c.speed / 2 * Real.sin (atan2 (target.2 - c.y) (target.1 - c.x))) ^ 2) *
          (delta / 60) /
        Real.sqrt ((target.1 - c.x) * (target.1 - c.x) +
          (target.2 - c.y) * (target.2 - c.y))) 1 ∧
    (update c delta).y = c.y + (target.2 - c.y) *
      min (Real.sqrt ((c.speed * Real.cos (atan2 (target.2 - c.y) (target.1 - c.x))) ^ 2 +
            (c.speed / 2 * Real.sin (atan2 (target.2 - c.y) (target.1 - c.x))) ^ 2) *
          (delta / 60) /
        Real.sqrt ((target.1 - c.x) * (target.1 - c.x) +
          (target.2 - c.y) * (target.2 - c.y))) 1 := by
  simp only [update, ht]
  rw [if_neg hfar]
  exact ⟨rfl, rfl⟩

/-- A speed-0 character sitting at the origin with a target 100 units due
east — the input refuting the strict `0 < r` part of C9. -/
def charC9 : CharState :=
  { x := 0, y := 0, targetPosition := some (100, 0), isWalking := true
    idlePingPongForward := true, speed := 0, direction := 0, angles := [0]
    textures := [], sprite := none, animFps := [], currentHealth := 1
    maxHealth := 1, healthRegen := 0, currentMana := 1, maxMana := 1
    manaRegen := 0 }

/-- **C9, counterexample.** A character with `speed = 0`, target set and
distance `100 ≥ 5`: the update leaves the position unchanged (`ratio = 0`),
so no `r` with `0 < r ≤ 1` expresses the new position as
`old + r·(target - old)` — the move ratio is not bounded away from 0. -/
theorem claim_C9_counterexample :
    charC9.targetPosition = some (100, 0) ∧
    5 ≤ Real.sqrt (((100 : ℝ) - charC9.x) * (100 - charC9.x) +
      ((0 : ℝ) - charC9.y) * (0 - charC9.y)) ∧
    ¬ ∃ r : ℝ, 0 < r ∧ r ≤ 1 ∧
      (update charC9 60).x = charC9.x + r * (100 - charC9.x) ∧
      (update charC9 60).y = charC9.y + r * (0 - charC9.y) := by
  have hxy : charC9.x = 0 ∧ charC9.y = 0 ∧ charC9.speed = 0 := ⟨rfl, rfl, rfl⟩
  have hdist : Real.sqrt (((100 : ℝ) - charC9.x) * (100 - charC9.x) +
      ((0 : ℝ) - charC9.y) * (0 - charC9.y)) = 100 := by
    rw [hxy.1, hxy.2.1]
    rw [show ((100 : ℝ) - 0) * (100 - 0) + (0 - 0) * (0 - 0) = 100 ^ 2 by norm_num]
    exact Real.sqrt_sq (by norm_num)
  have hfar : ¬ Real.sqrt (((100 : ℝ) - charC9.x) * (100 - charC9.x) +
      ((0 : ℝ) - charC9.y) * (0 - charC9.y)) < 5 := by rw [hdist]; norm_num
  obtain ⟨hx, hy⟩ := update_move charC9 60 (100, 0) rfl hfar
  have heff : Real.sqrt ((charC9.speed *
        Real.cos (atan2 ((0 : ℝ) - charC9.y) ((100 : ℝ) - charC9.x))) ^ 2 +
      (charC9.speed / 2 *
        Real.sin (atan2 ((0 : ℝ) - charC9.y) ((100 : ℝ) - charC9.x))) ^ 2) = 0 := by
    rw [hxy.2.2]
    rw [show ((0 : ℝ) * Real.cos (atan2 ((0 : ℝ) - charC9.y) ((100 : ℝ) - charC9.x))) ^ 2 +
        ((0 : ℝ) / 2 * Real.sin (atan2 ((0 : ℝ) - charC9.y) ((100 : ℝ) - charC9.x))) ^ 2 =
        0 by ring]
    exact Real.sqrt_zero
  rw [heff, hdist] at hx hy
  refine ⟨rfl, by rw [hdist]; norm_num, ?_⟩
  rintro ⟨r, hr0, hr1, hx', hy'⟩
  rw [hx, hxy.1] at hx'
  have : r * 100 = 0 := by
    have h60 : (0 : ℝ) * (60 / 60) / 100 = 0 := by norm_num
    rw [h60] at hx'
    simp at hx'
    linarith [hx']
  linarith

/-- **C9, amended.** On every far-branch update (`target` set, distance at
least the 5-unit epsilon, `delta ≥ 0`) the new position is
`old + r·(target - old)` for some `0 ≤ r ≤ 1` — on the closed segment between
old position and target, never overshooting — and the distance to the target
does not increase; `r` is strictly positive whenever the character's speed is
nonzero and `delta > 0`, but `r = 0` occurs for speed-0 characters, so the
original claim's `0 < r` needs that proviso. -/
theorem claim_C9_amended (c : CharState) (delta : ℝ) (target : ℝ × ℝ)
    (ht : c.targetPosition = some target)
    (hdist : 5 ≤ Real.sqrt ((target.1 - c.x) * (target.1 - c.x) +
      (target.2 - c.y) * (target.2 - c.y)))
    (hdelta : 0 ≤ delta) :
    ∃ r : ℝ, 0 ≤ r ∧ r ≤ 1 ∧
      (update c delta).x = c.x + r * (target.1 - c.x) ∧
      (update c delta).y = c.y + r * (target.2 - c.y) ∧
      Real.sqrt ((target.1 - (update c delta).x) * (target.1 - (update c delta).x) +
          (target.2 - (update c delta).y) * (target.2 - (update c delta).y)) ≤
        Real.sqrt ((target.1 - c.x) * (target.1 - c.x) +
          (target.2 - c.y) * (target.2 - c.y)) ∧
      (c.speed ≠ 0 → 0 < delta → 0 < r) := by
  have hfar : ¬ Real.sqrt ((target.1 - c.x) * (target.1 - c.x) +
      (target.2 - c.y) * (target.2 - c.y)) < 5 := not_lt.mpr hdist
  have hD : (0 : ℝ) < Real.sqrt ((target.1 - c.x) * (target.1 - c.x) +
      (target.2 - c.y) * (target.2 - c.y)) := lt_of_lt_of_le (by norm_num) hdist
  obtain ⟨hx, hy⟩ := update_move c delta target ht hfar
  refine ⟨min (Real.sqrt ((c.speed * Real.cos (atan2 (target.2 - c.y) (target.1 - c.x))) ^ 2 +
        (c.speed / 2 * Real.sin (atan2 (target.2 - c.y) (target.1 - c.x))) ^ 2) *
      (delta / 60) /
    Real.sqrt ((target.1 - c.x) * (target.1 - c.x) + (target.2 - c.y) * (target.2 - c.y))) 1,
    ?_, min_le_right _ _, by rw [hx]; ring, by rw [hy]; ring, ?_, ?_⟩
  · exact le_min (div_nonneg (mul_nonneg (Real.sqrt_nonneg _) (by linarith)) hD.le)
      zero_le_one
  · set rr := min (Real.sqrt ((c.speed *
          Real.cos (atan2 (target.2 - c.y) (target.1 - c.x))) ^ 2 +
          (c.speed / 2 * Real.sin (atan2 (target.2 - c.y) (target.1 - c.x))) ^ 2) *
        (delta / 60) /
      Real.sqrt ((target.1 - c.x) * (target.1 - c.x) +
        (target.2 - c.y) * (target.2 - c.y))) 1 with hrr
    have hr0 : (0 : ℝ) ≤ rr := by
      rw [hrr]
      exact le_min (div_nonneg (mul_nonneg (Real.sqrt_nonneg _) (by linarith)) hD.le)
        zero_le_one
    have hr1 : rr ≤ 1 := by rw [hrr]; exact min_le_right _ _
    have h1 : target.1 - (update c delta).x = (target.1 - c.x) * (1 - rr) := by
      rw [hx]; ring
    have h2 : target.2 - (update c delta).y = (target.2 - c.y) * (1 - rr) := by
      rw [hy]; ring
    rw [h1, h2]
    apply Real.sqrt_le_sqrt
    have hle : (1 - rr) ^ 2 ≤ 1 := by nlinarith
    nlinarith [sq_nonneg (target.1 - c.x), sq_nonneg (target.2 - c.y), hle]
  · intro hs hd
    have hs2 : (0 : ℝ) < c.speed ^ 2 :=
      lt_of_le_of_ne (sq_nonneg _) (Ne.symm (pow_ne_zero 2 hs))
    have hθ := Real.sin_sq_add_cos_sq (atan2 (target.2 - c.y) (target.1 - c.x))
    have heff : (0 : ℝ) < Real.sqrt ((c.speed *
        Real.cos (atan2 (target.2 - c.y) (target.1 - c.x))) ^ 2 +
        (c.speed / 2 * Real.sin (atan2 (target.2 - c.y) (target.1 - c.x))) ^ 2) := by
      apply Real.sqrt_pos.mpr
      nlinarith [hs2, hθ, sq_nonneg (c.speed * Real.cos (atan2 (target.2 - c.y) (target.1 - c.x))),
        sq_nonneg (c.speed * Real.sin (atan2 (target.2 - c.y) (target.1 - c.x)))]
    exact lt_min (div_pos (mul_pos heff (div_pos hd (by norm_num))) hD) zero_lt_one

/-- Witness for C9: the due-east character of the counterexample, but viewed
through the amended statement (here `speed = 0`, so `r = 0` is allowed and
correct). -/
theorem claim_C9_witness :
    charC9.targetPosition = some (100, 0) ∧
    5 ≤ Real.sqrt ((((100 : ℝ), (0 : ℝ)).1 - charC9.x) *
        (((100 : ℝ), (0 : ℝ)).1 - charC9.x) +
      (((100 : ℝ), (0 : ℝ)).2 - charC9.y) * (((100 : ℝ), (0 : ℝ)).2 - charC9.y)) ∧
    (0 : ℝ) ≤ 60 ∧
    (∃ r : ℝ, 0 ≤ r ∧ r ≤ 1 ∧
      (update charC9 60).x = charC9.x + r * (((100 : ℝ), (0 : ℝ)).1 - charC9.x) ∧
      (update charC9 60).y = charC9.y + r * (((100 : ℝ), (0 : ℝ)).2 - charC9.y) ∧
      Real.sqrt ((((100 : ℝ), (0 : ℝ)).1 - (update charC9 60).x) *
          (((100 : ℝ), (0 : ℝ)).1 - (update charC9 60).x) +
        (((100 : ℝ), (0 : ℝ)).2 - (update charC9 60).y) *
          (((100 : ℝ), (0 : ℝ)).2 - (update charC9 60).y)) ≤
        Real.sqrt ((((100 : ℝ), (0 : ℝ)).1 - charC9.x) *
            (((100 : ℝ), (0 : ℝ)).1 - charC9.x) +
          (((100 : ℝ), (0 : ℝ)).2 - charC9.y) * (((100 : ℝ), (0 : ℝ)).2 - charC9.y)) ∧
      (charC9.speed ≠ 0 → (0 : ℝ) < 60 → 0 < r)) := by
  have hdist : (5 : ℝ) ≤ Real.sqrt ((((100 : ℝ), (0 : ℝ)).1 - charC9.x) *
      (((100 : ℝ), (0 : ℝ)).1 - charC9.x) +
      (((100 : ℝ), (0 : ℝ)).2 - charC9.y) * (((100 : ℝ), (0 : ℝ)).2 - charC9.y)) := by
    have : Real.sqrt ((((100 : ℝ), (0 : ℝ)).1 - charC9.x) *
        (((100 : ℝ), (0 : ℝ)).1 - charC9.x) +
        (((100 : ℝ), (0 : ℝ)).2 - charC9.y) * (((100 : ℝ), (0 : ℝ)).2 - charC9.y)) = 100 := by
      rw [show (((100 : ℝ), (0 : ℝ)).1 - charC9.x) * (((100 : ℝ), (0 : ℝ)).1 - charC9.x) +
          (((100 : ℝ), (0 : ℝ)).2 - charC9.y) * (((100 : ℝ), (0 : ℝ)).2 - charC9.y) =
          100 ^ 2 by norm_num [charC9]]
      exact Real.sqrt_sq (by norm_num)
    rw [this]; norm_num
  exact ⟨rfl, hdist, by norm_num,
    claim_C9_amended charC9 60 (100, 0) rfl hdist (by norm_num)⟩

/-- The game's 16-direction set (`mkAngles 16` written out, sorted). -/
noncomputable def angles16 : List ℝ :=
  [-157.5, -135, -112.5, -90, -67.5, -45, -22.5, 0,
    22.5, 45, 67.5, 90, 112.5, 135, 157.5, 180]

/-- Frame table for the C7 scenario: walk and idle, each at direction `0`. -/
noncomputable def texC7 : AnimTable ℝ :=
  [("walk", [((0 : ℝ), [0, 1])]), ("idle", [((0 : ℝ), [0])])]

/-- The C7 character: at `(100, 100)`, speed `250`, 16-direction set, idle
and facing `90`. -/
noncomputable def charC7 : CharState :=
  { x := 100, y := 100, targetPosition := none, isWalking := false
    idlePingPongForward := true, speed := 250, direction := 90
    angles := angles16, textures := texC7, sprite := some ⟨[7], 0, false, 1⟩
    animFps := [], currentHealth := 1, maxHealth := 1, healthRegen := 0
    currentMana := 1, maxMana := 1, manaRegen := 0 }

theorem sqrt_10000 : Real.sqrt (10000 : ℝ) = 100 := by
  rw [show (10000 : ℝ) = 100 ^ 2 by norm_num]
  exact Real.sqrt_sq (by norm_num)

theorem sqrt_62500 : Real.sqrt (62500 : ℝ) = 250 := by
  rw [show (62500 : ℝ) = 250 ^ 2 by norm_num]
  exact Real.sqrt_sq (by norm_num)

/-- `Math.atan2(0, 100) = 0`: due east. -/
theorem atan2_east : atan2 0 100 = 0 := by
  rw [atan2]
  exact Complex.arg_ofReal_of_nonneg (by norm_num)

/-- The closest of the 16 directions to angle `0` is the member `0`. -/
theorem fcd16_zero : findClosestDirection angles16 (0 : ℝ) = 0 := by
  rw [findClosestDirection]
  have h0 : normUp (normDown (0 : ℝ)) = 0 := by
    rw [normDown]
    norm_num
    rw [normUp]
    norm_num
  rw [h0]
  norm_num [angles16, findClosestLoop, circDiff, List.headD,
    abs_of_nonneg, abs_of_nonpos]

/-- `moveToward(200, 100)` on the C7 character: target set, direction `0`,
walking, sprite swapped to the walk frames at fps `30/60`. -/
theorem moveToward_charC7 :
    moveToward charC7 200 100 =
      { charC7 with targetPosition := some (200, 100), direction := 0
                    isWalking := true, sprite := some ⟨[0, 1], 0, true, 30 / 60⟩ } := by
  norm_num [moveToward, startWalkAnimation, charC7, texC7, getAnimationFrames,
    getAnimFps, List.lookup, atan2_east, fcd16_zero]
  simp

/-- The far branch of `update` only changes the position. -/
theorem update_far_fields (c : CharState) (delta : ℝ) (target : ℝ × ℝ)
    (ht : c.targetPosition = some target)
    (hfar : ¬ Real.sqrt ((target.1 - c.x) * (target.1 - c.x) +
        (target.2 - c.y) * (target.2 - c.y)) < 5) :
    (update c delta).targetPosition = c.targetPosition ∧
    (update c delta).isWalking = c.isWalking ∧
    (update c delta).sprite = c.sprite ∧
    (update c delta).textures = c.textures ∧
    (update c delta).direction = c.direction ∧
    (update c delta).healthRegen = c.healthRegen ∧
    (update c delta).manaRegen = c.manaRegen := by
  simp only [update, ht]
  rw [if_neg hfar]
  exact ⟨rfl, rfl, rfl, rfl, rfl, rfl, rfl⟩

/-- The near branch of `update` (`distance < 5`, no regeneration pending)
clears the target and stops the walk. -/
theorem update_snap (c : CharState) (delta : ℝ) (target : ℝ × ℝ)
    (ht : c.targetPosition = some target)
    (hnear : Real.sqrt ((target.1 - c.x) * (target.1 - c.x) +
        (target.2 - c.y) * (target.2 - c.y)) < 5)
    (hhr : ¬ (0 < c.healthRegen ∧ c.currentHealth < c.maxHealth))
    (hmr : ¬ (0 < c.manaRegen ∧ c.currentMana < c.maxMana)) :
    update c delta = stopWalkAnimation { c with targetPosition := none } := by
  simp only [update, ht]
  rw [if_neg hhr, if_neg hmr, if_pos hnear]

/-- `stopWalkAnimation` always ends not walking and never touches the
target. -/
theorem stopWalk_fields (c : CharState) :
    (stopWalkAnimation c).targetPosition = c.targetPosition ∧
    (stopWalkAnimation c).isWalking = false := by
  by_cases hw : c.isWalking = false
  · simp only [stopWalkAnimation, if_pos hw]
    constructor <;> simp [hw]
  · simp only [stopWalkAnimation, startIdlePingPong, if_neg hw]
    repeat' split
    all_goals exact ⟨rfl, rfl⟩

/-- **C7, counterexample.** The claim's scenario — `moveToward(200,100)` from
`(100,100)` at speed 250, then ONE `update` with a 1-second delta — does set
direction `0`, start walking and land exactly on `(200, 100)`, but the same
update does NOT clear the target or return to idle: the arrival check runs at
the START of `update`, so the target is still set and the walk flag still on
after that update. -/
theorem claim_C7_counterexample :
    (moveToward charC7 200 100).direction = 0 ∧
    (moveToward charC7 200 100).isWalking = true ∧
    (update (moveToward charC7 200 100) 60).x = 200 ∧
    (update (moveToward charC7 200 100) 60).y = 100 ∧
    (update (moveToward charC7 200 100) 60).targetPosition = some (200, 100) ∧
    (update (moveToward charC7 200 100) 60).isWalking = true := by
  have hmv := moveToward_charC7
  have hMx : (moveToward charC7 200 100).x = 100 := by rw [hmv]; rfl
  have hMy : (moveToward charC7 200 100).y = 100 := by rw [hmv]; rfl
  have hMsp : (moveToward charC7 200 100).speed = 250 := by rw [hmv]; rfl
  have hMt : (moveToward charC7 200 100).targetPosition = some (200, 100) := by rw [hmv]
  have hMw : (moveToward charC7 200 100).isWalking = true := by rw [hmv]
  have hfar : ¬ Real.sqrt ((((200 : ℝ), (100 : ℝ)).1 - (moveToward charC7 200 100).x) *
      (((200 : ℝ), (100 : ℝ)).1 - (moveToward charC7 200 100).x) +
      (((200 : ℝ), (100 : ℝ)).2 - (moveToward charC7 200 100).y) *
      (((200 : ℝ), (100 : ℝ)).2 - (moveToward charC7 200 100).y)) < 5 := by
    rw [hMx, hMy]
    norm_num [sqrt_10000]
  obtain ⟨hx1, hy1⟩ := update_move (moveToward charC7 200 100) 60 (200, 100) hMt hfar
  rw [hMx, hMy, hMsp] at hx1 hy1
  norm_num [atan2_east, Real.cos_zero, Real.sin_zero, sqrt_62500, sqrt_10000,
    min_def] at hx1 hy1
  obtain ⟨ht2, hw2, -, -, -, -, -⟩ :=
    update_far_fields (moveToward charC7 200 100) 60 (200, 100) hMt hfar
  exact ⟨by rw [hmv], hMw, hx1, hy1, by rw [ht2, hMt], by rw [hw2, hMw]⟩

/-- **C7, amended.** In the claim's scenario the character does reach
`(200, 100)` after one update (moving 100 ≤ 250 units), but the target is
cleared and the character returns to idle only on the NEXT update: the
arrival check happens at the start of an update, before any movement within
it is taken into account. -/
theorem claim_C7_amended :
    (moveToward charC7 200 100).direction = 0 ∧
    (moveToward charC7 200 100).isWalking = true ∧
    (update (moveToward charC7 200 100) 60).x = 200 ∧
    (update (moveToward charC7 200 100) 60).y = 100 ∧
    Real.sqrt (((update (moveToward charC7 200 100) 60).x - charC7.x) *
        ((update (moveToward charC7 200 100) 60).x - charC7.x) +
       ((update (moveToward charC7 200 100) 60).y - charC7.y) *
        ((update (moveToward charC7 200 100) 60).y - charC7.y)) ≤ 250 ∧
    (update (update (moveToward charC7 200 100) 60) 60).targetPosition = none ∧
    (update (update (moveToward charC7 200 100) 60) 60).isWalking = false := by
  have hmv := moveToward_charC7
  have hMx : (moveToward charC7 200 100).x = 100 := by rw [hmv]; rfl
  have hMy : (moveToward charC7 200 100).y = 100 := by rw [hmv]; rfl
  have hMsp : (moveToward charC7 200 100).speed = 250 := by rw [hmv]; rfl
  have hMt : (moveToward charC7 200 100).targetPosition = some (200, 100) := by rw [hmv]
  have hMw : (moveToward charC7 200 100).isWalking = true := by rw [hmv]
  have hfar : ¬ Real.sqrt ((((200 : ℝ), (100 : ℝ)).1 - (moveToward charC7 200 100).x) *
      (((200 : ℝ), (100 : ℝ)).1 - (moveToward charC7 200 100).x) +
      (((200 : ℝ), (100 : ℝ)).2 - (moveToward charC7 200 100).y) *
      (((200 : ℝ), (100 : ℝ)).2 - (moveToward charC7 200 100).y)) < 5 := by
    rw [hMx, hMy]
    norm_num [sqrt_10000]
  obtain ⟨hx1, hy1⟩ := update_move (moveToward charC7 200 100) 60 (200, 100) hMt hfar
  rw [hMx, hMy, hMsp] at hx1 hy1
  norm_num [atan2_east, Real.cos_zero, Real.sin_zero, sqrt_62500, sqrt_10000,
    min_def] at hx1 hy1
  obtain ⟨ht2, hw2, -, -, -, hhr2, hmr2⟩ :=
    update_far_fields (moveToward charC7 200 100) 60 (200, 100) hMt hfar
  have ht2' : (update (moveToward charC7 200 100) 60).targetPosition = some (200, 100) := by
    rw [ht2, hMt]
  have hnear2 : Real.sqrt ((((200 : ℝ), (100 : ℝ)).1 -
      (update (moveToward charC7 200 100) 60).x) *
      (((200 : ℝ), (100 : ℝ)).1 - (update (moveToward charC7 200 100) 60).x) +
      (((200 : ℝ), (100 : ℝ)).2 - (update (moveToward charC7 200 100) 60).y) *
      (((200 : ℝ), (100 : ℝ)).2 - (update (moveToward charC7 200 100) 60).y)) < 5 := by
    rw [hx1, hy1]
    norm_num [Real.sqrt_zero]
  have hhr0 : (update (moveToward charC7 200 100) 60).healthRegen = 0 := by
    rw [hhr2, hmv]
    rfl
  have hmr0 : (update (moveToward charC7 200 100) 60).manaRegen = 0 := by
    rw [hmr2, hmv]
    rfl
  have hhr' : ¬ (0 < (update (moveToward charC7 200 100) 60).healthRegen ∧
      (update (moveToward charC7 200 100) 60).currentHealth <
        (update (moveToward charC7 200 100) 60).maxHealth) := by
    rw [hhr0]
    rintro ⟨h, -⟩
    exact lt_irrefl 0 h
  have hmr' : ¬ (0 < (update (moveToward charC7 200 100) 60).manaRegen ∧
      (update (moveToward charC7 200 100) 60).currentMana <
        (update (moveToward charC7 200 100) 60).maxMana) := by
    rw [hmr0]
    rintro ⟨h, -⟩
    exact lt_irrefl 0 h
  have hsnap := update_snap (update (moveToward charC7 200 100) 60) 60 (200, 100)
    ht2' hnear2 hhr' hmr'
  have hsw := stopWalk_fields
    { (update (moveToward charC7 200 100) 60) with targetPosition := none }
  have hd100 : Real.sqrt (((update (moveToward charC7 200 100) 60).x - charC7.x) *
      ((update (moveToward charC7 200 100) 60).x - charC7.x) +
      ((update (moveToward charC7 200 100) 60).y - charC7.y) *
      ((update (moveToward charC7 200 100) 60).y - charC7.y)) ≤ 250 := by
    rw [hx1, hy1]
    norm_num [charC7, sqrt_10000]
  refine ⟨by rw [hmv], hMw, hx1, hy1, hd100, ?_, ?_⟩
  · rw [hsnap, hsw.1]
  · rw [hsnap, hsw.2]

end MovementClaims

end DaggerQuest
